import Mathlib

/-!
Squid exporter: the collector (`collector/metrics.go`).

A shallow embedding of `New`, `Exporter.Describe` and `Exporter.Collect`.

* Go maps are association lists with distinct keys (`AList`); the order in
  which a `range` statement visits a map is not fixed by the language, so
  every `range` over a map takes a `RangeOrder`, an arbitrary permutation of
  the entries.
* A channel is the list of the values sent on it, oldest first.
* The package-level variables are the record `Globals`.
* The upstream client is an interface value: its methods are a record of
  state transformers over an arbitrary client state.
* `float64` values are only moved around, never computed with; they are
  modelled by their IEEE-754 bit pattern.
* Go strings are Lean strings, hence valid UTF-8.
* `prometheus.NewDesc` records the outcome of its validation in the
  descriptor, and `prometheus.MustNewConstMetric` panics on a descriptor that
  failed it or that declares variable labels. A panic ends `Collect` at once:
  what was sent and called before it stays, nothing after it happens. The
  name checks of the library differ between its versions and are a parameter
  (`Validation`), constrained only by what every version accepts and rejects;
  names that start with two underscores are rejected by every version.
-/

namespace collector

/-! ## Values and Prometheus data -/

/-- IEEE-754 binary64 value, identified by its bit pattern. -/
structure float64 where
  bits : Fin (2 ^ 64)
deriving DecidableEq

/-- The float64 constant `1`. -/
def float64.one : float64 := ⟨⟨0x3FF0000000000000, by norm_num⟩⟩

/-- The float64 constant `0`. -/
def float64.zero : float64 := ⟨⟨0, by norm_num⟩⟩

/-- The float64 constant `1024` (sign 0, exponent 1033, mantissa 0). -/
def float64.v1024 : float64 := ⟨⟨0x4090000000000000, by norm_num⟩⟩

/-- Go type `prometheus.Labels`, a `map[string]string`. -/
abbrev Labels := AList (fun _ : String => String)

/-- Equality of label maps is decided on their entries. -/
instance instDecidableEqLabels : DecidableEq Labels := fun a b =>
  decidable_of_iff (a.entries = b.entries) AList.ext_iff.symm

/-- The classic metric-name pattern `[a-zA-Z_:][a-zA-Z0-9_:]*`. -/
def legacyMetricName (s : String) : Bool :=
  match s.data with
  | [] => false
  | c :: cs =>
    (c.isAlpha || c == '_' || c == ':') &&
      cs.all fun c => c.isAlphanum || c == '_' || c == ':'

/-- The classic label-name pattern `[a-zA-Z_][a-zA-Z0-9_]*`. -/
def legacyLabelName (s : String) : Bool :=
  match s.data with
  | [] => false
  | c :: cs => (c.isAlpha || c == '_') && cs.all fun c => c.isAlphanum || c == '_'

/-- The name checks of the Prometheus library (`model.IsValidMetricName` and
`model.LabelName.IsValid`). The library is outside the repository and its
checks depend on its version, so they are a parameter; every version accepts
the names of the classic patterns and rejects the empty label name. -/
structure Validation where
  IsValidMetricName : String → Bool
  IsValidLabelName : String → Bool
  metric_legacy : ∀ s, legacyMetricName s = true → IsValidMetricName s = true
  label_legacy : ∀ s, legacyLabelName s = true → IsValidLabelName s = true
  label_nonempty : IsValidLabelName "" = false

/-- The checks of a library version that accepts the classic patterns only. -/
def legacyValidation : Validation :=
  { IsValidMetricName := legacyMetricName
    IsValidLabelName := legacyLabelName
    metric_legacy := fun _ h => h
    label_legacy := fun _ h => h
    label_nonempty := rfl }

/-- Go test `strings.HasPrefix(l, "__")`: label names that start with two
underscores are reserved. -/
def reserved (l : String) : Bool :=
  match l.data with
  | '_' :: '_' :: _ => true
  | _ => false

/-- Go function `checkLabelName` of the library: a valid name that is not
reserved. -/
def checkLabelName (rules : Validation) (l : String) : Bool :=
  rules.IsValidLabelName l && !reserved l

/-- The errors of the library that `Collect` can meet; a panic carries one. -/
inductive LibError where
  | invalidMetricName
  | invalidLabelName
  | duplicateLabelNames
  | inconsistentCardinality (expected got : Nat)
deriving DecidableEq

/-- Go type `prometheus.Desc`: the content of a metric descriptor and the
error its construction ended with, if any. -/
structure Desc where
  fqName : String
  help : String
  constLabels : Labels
  variableLabels : List String
  err : Option LibError
deriving DecidableEq

/-- Go type `prometheus.ValueType`. -/
inductive ValueType where
  | CounterValue
  | GaugeValue
  | UntypedValue
deriving DecidableEq

/-- One sample, as built by `prometheus.MustNewConstMetric` or by a gauge of a
`GaugeVec`: descriptor, type, value and the values of the variable labels. -/
structure Metric where
  desc : Desc
  valType : ValueType
  val : float64
  labelValues : List String
deriving DecidableEq

/-- Go function `prometheus.BuildFQName`. -/
def BuildFQName (namespace_ subsystem name : String) : String :=
  if name = "" then ""
  else if namespace_ ≠ "" ∧ subsystem ≠ "" then namespace_ ++ "_" ++ subsystem ++ "_" ++ name
  else if namespace_ ≠ "" then namespace_ ++ "_" ++ name
  else if subsystem ≠ "" then subsystem ++ "_" ++ name
  else name

/-- Go function `prometheus.NewDesc`: the descriptor always comes back, with
`err` set when the metric name or a label name is rejected or a label name
occurs twice. -/
def NewDesc (rules : Validation) (fqName help : String) (variableLabels : List String)
    (constLabels : Labels) : Desc :=
  { fqName := fqName, help := help, constLabels := constLabels,
    variableLabels := variableLabels,
    err :=
      if rules.IsValidMetricName fqName = false then some LibError.invalidMetricName
      else if constLabels.keys.any (fun l => !checkLabelName rules l) then
        some LibError.invalidLabelName
      else if variableLabels.any (fun l => !checkLabelName rules l) then
        some LibError.invalidLabelName
      else if ¬ (constLabels.keys ++ variableLabels).Nodup then
        some LibError.duplicateLabelNames
      else none }

/-- Go function `prometheus.NewConstMetric`, called without label values:
it fails on a descriptor with an error and on one with variable labels. -/
def NewConstMetric (d : Desc) (t : ValueType) (v : float64) : Except LibError Metric :=
  match d.err with
  | some er => Except.error er
  | none =>
    if d.variableLabels.length = 0 then
      Except.ok { desc := d, valType := t, val := v, labelValues := [] }
    else Except.error (LibError.inconsistentCardinality d.variableLabels.length 0)

/-- Go function `prometheus.MustNewConstMetric`, called without label values:
the error of `NewConstMetric` is the value it panics with. -/
def MustNewConstMetric (d : Desc) (t : ValueType) (v : float64) : Except LibError Metric :=
  NewConstMetric d t v

/-- Go type `descMap`, a `map[string]*prometheus.Desc`. -/
abbrev descMap := AList (fun _ : String => Desc)

/-- The order in which one `range` statement visits the entries of a map:
some permutation of them. -/
structure RangeOrder (α : Type) where
  visit : List α → List α
  perm : ∀ l, (visit l).Perm l

/-- The visiting order that follows the stored order of the entries. -/
def RangeOrder.stored (α : Type) : RangeOrder α :=
  { visit := fun l => l, perm := fun l => List.Perm.refl l }

/-- Go type `prometheus.GaugeVec`, for the vectors with the single variable
label `host`, the only kind the package builds: the descriptor and the gauges
created so far, keyed by the value of `host`. -/
structure GaugeVec where
  desc : Desc
  children : AList (fun _ : String => float64)
  host_label : desc.variableLabels = ["host"]

/-- Go constant `namespace`. -/
def namespace_ : String := "squid"

/-- Go call `prometheus.NewGaugeVec(prometheus.GaugeOpts{Namespace, Name, Help}, labelNames)`
with `labelNames` the single name `host`. -/
def NewGaugeVec (rules : Validation) (ns name help : String) (labelNames : List String)
    (h : labelNames = ["host"]) : GaugeVec :=
  { desc := NewDesc rules (BuildFQName ns "" name) help labelNames ∅, children := ∅,
    host_label := h }

/-- Go call `v.With(prometheus.Labels{"host": host}).Set(x)`: the label map
names exactly the variable label of the vector, so `With` does not panic; the
gauge for `host` is created if absent and its value overwritten. -/
def GaugeVec.WithSet (v : GaugeVec) (host : String) (x : float64) : GaugeVec :=
  { v with children := v.children.insert host x }

/-- Go method `GaugeVec.Describe`: sends the descriptor of the vector. -/
def GaugeVec.Describe (v : GaugeVec) (ch : List Desc) : List Desc :=
  ch ++ [v.desc]

/-- Go method `GaugeVec.Collect`: sends one gauge sample per child. -/
def GaugeVec.Collect (v : GaugeVec) (ord : RangeOrder (Sigma fun _ : String => float64))
    (c : List Metric) : List Metric :=
  (ord.visit v.children.entries).foldl
    (fun c kv => c ++ [{ desc := v.desc, valType := ValueType.GaugeValue, val := kv.2,
                         labelValues := [kv.1] }]) c

/-! ## Upstream records and client -/

/-- Modelled from the spec: one `(LabelKey, LabelValue)` pair of a record's
`VarLabels`; the type declaration is not part of the collector source. -/
structure VarLabel where
  Key : String
  Value : String
deriving DecidableEq

/-- Modelled from the spec: `Record{Key, Value, VarLabels}`, the element type of
the sequences returned by the upstream client; the type declaration is not part
of the collector source. -/
structure Record where
  Key : String
  Value : float64
  VarLabels : List VarLabel
deriving DecidableEq

/-- Go result pair `(insts, err)` of a fetch; `err` is `none` for Go `nil`,
otherwise the text of the error. -/
abbrev FetchResult := List Record × Option String

/-- Modelled from the spec: the `SquidClient` interface (section 6), three
fetch operations; each may change the state `σ` of the client behind it. -/
structure SquidClient (σ : Type) where
  GetCounters : σ → FetchResult × σ
  GetServiceTimes : σ → FetchResult × σ
  GetInfos : σ → FetchResult × σ

/-- The three operations of the upstream client, for the call trace. -/
inductive Call where
  | GetCounters
  | GetServiceTimes
  | GetInfos
deriving DecidableEq

/-! ## Package state, exporter, `New` -/

/-- The package-level variables of `collector`. -/
structure Globals where
  counters : descMap
  serviceTimes : descMap
  ExtractServiceTimes : Bool
  infos : descMap

/-- Go type `Exporter`; `client` is the state of the client it points to. -/
structure Exporter (σ : Type) where
  client : σ
  hostname : String
  port : Int
  up : GaugeVec

/-- Go type `CollectorConfig`. -/
structure CollectorConfig where
  Hostname : String
  Port : Int
  Login : String
  Password : String
  Labels : Labels
  ProxyHeader : String

/-- The catalogue builders and the client constructor `New` calls; they are
defined elsewhere in the package and taken as parameters. -/
structure Deps (σ : Type) where
  generateSquidCounters : Labels → descMap
  generateSquidServiceTimes : Labels → descMap
  generateSquidInfos : Labels → descMap
  NewCacheObjectClient : String → String → String → String → σ

/-- Go function `New`: rebuilds the package maps and returns the exporter. -/
def New {σ : Type} (rules : Validation) (deps : Deps σ) (g : Globals) (c : CollectorConfig) :
    Globals × Exporter σ :=
  let g := { g with counters := deps.generateSquidCounters c.Labels }
  let g := if g.ExtractServiceTimes then
      { g with serviceTimes := deps.generateSquidServiceTimes c.Labels }
    else g
  let g := { g with infos := deps.generateSquidInfos c.Labels }
  (g,
   { client := deps.NewCacheObjectClient
       ("http://" ++ c.Hostname ++ ":" ++ toString c.Port ++ "/squid-internal-mgr/")
       c.Login c.Password c.ProxyHeader
     hostname := c.Hostname
     port := c.Port
     up := NewGaugeVec rules namespace_ "up" "Was the last query of squid successful?"
       ["host"] rfl })

/-! ## `Describe` -/

/-- What a call of `Describe` leaves behind: the package variables and the
descriptors sent on `ch`. -/
structure DescribeResult where
  globals : Globals
  ch : List Desc

/-- Go statement `for _, v := range m { ch <- v }`. -/
def rangeSend (ord : RangeOrder (Sigma fun _ : String => Desc)) (m : descMap)
    (ch : List Desc) : List Desc :=
  (ord.visit m.entries).foldl (fun ch kv => ch ++ [kv.2]) ch

/-- Go method `Exporter.Describe`; `oc`, `os`, `oi` are the visiting orders of
its three `range` statements. -/
def Describe {σ : Type} (g : Globals) (oc os oi : RangeOrder (Sigma fun _ : String => Desc))
    (e : Exporter σ) : DescribeResult :=
  let ch := e.up.Describe []
  let ch := rangeSend oc g.counters ch
  let ch := if g.ExtractServiceTimes then rangeSend os g.serviceTimes ch else ch
  let ch := rangeSend oi g.infos ch
  { globals := g, ch := ch }

/-! ## `Collect` -/

/-- Go call `log.Println(msg, err)`, without the time stamp of the logger. -/
def Println (msg err : String) : String := msg ++ " " ++ err ++ "\n"

/-- What a call of `Collect` leaves behind: the package variables, the
exporter (client state and `up` vector), the samples sent on `c`, the calls
made on the client in order, the lines logged, and the value `Collect`
panicked with (`none` when it returned). -/
structure CollectResult (σ : Type) where
  globals : Globals
  exporter : Exporter σ
  c : List Metric
  calls : List Call
  log : List String
  panic : Option LibError

/-- Go loop `for _, inst := range insts { body }` over a slice, with the
channel `c` as its state: a panic in the body ends the loop, and what was
sent before stays sent. -/
def rangeInsts (body : List Metric → Record → Except LibError (List Metric)) :
    List Record → List Metric → List Metric × Option LibError
  | [], c => (c, none)
  | inst :: rest, c =>
    match body c inst with
    | Except.ok c2 => rangeInsts body rest c2
    | Except.error p => (c, some p)

/-- Body of the counters and service-times loops: a record whose key is in
the map sends one sample of type `t`, or panics in `MustNewConstMetric`. -/
def sendKnown (m : descMap) (t : ValueType) (c : List Metric) (inst : Record) :
    Except LibError (List Metric) :=
  match m.lookup inst.Key with
  | some d =>
    match MustNewConstMetric d t inst.Value with
    | Except.ok x => Except.ok (c ++ [x])
    | Except.error p => Except.error p
  | none => Except.ok c

/-- Body of the infos loop. -/
def sendInfo (rules : Validation) (infos : descMap) (c : List Metric) (inst : Record) :
    Except LibError (List Metric) :=
  match infos.lookup inst.Key with
  | some d =>
    match MustNewConstMetric d ValueType.GaugeValue inst.Value with
    | Except.ok x => Except.ok (c ++ [x])
    | Except.error p => Except.error p
  | none =>
    if inst.Key = "squid_info" then
      let constLabels : Labels :=
        inst.VarLabels.foldl (fun cl vl => cl.insert vl.Key vl.Value) ∅
      let infoDesc := NewDesc rules (BuildFQName namespace_ "info" "service")
        "Metrics as string from info on cache_object" [] constLabels
      match MustNewConstMetric infoDesc ValueType.GaugeValue inst.Value with
      | Except.ok x => Except.ok (c ++ [x])
      | Except.error p => Except.error p
    else Except.ok c

/-- Lines 85-97 of `Collect`: the counters fetch, the availability value and
the counters loop. -/
def collectCounters {σ : Type} (g : Globals) (cl : SquidClient σ) (e : Exporter σ) :
    CollectResult σ :=
  -- insts, err := e.client.GetCounters()
  let r := cl.GetCounters e.client
  let r0 : CollectResult σ :=
    { globals := g, exporter := { e with client := r.2 }, c := [],
      calls := [Call.GetCounters], log := [], panic := none }
  match r.1.2 with
  | none =>
    let l := rangeInsts (sendKnown g.counters ValueType.CounterValue) r.1.1 r0.c
    { r0 with
      exporter := { r0.exporter with up := r0.exporter.up.WithSet e.hostname float64.one }
      c := l.1, panic := l.2 }
  | some err =>
    { r0 with
      exporter := { r0.exporter with up := r0.exporter.up.WithSet e.hostname float64.zero }
      log := r0.log ++ [Println "Could not fetch counter metrics from squid instance: " err] }

/-- Lines 99-111 of `Collect`: the service-times fetch and loop, if service
times are extracted. -/
def collectServiceTimes {σ : Type} (g : Globals) (cl : SquidClient σ) (r1 : CollectResult σ) :
    CollectResult σ :=
  if g.ExtractServiceTimes then
    -- insts, err = e.client.GetServiceTimes()
    let r := cl.GetServiceTimes r1.exporter.client
    let r1 := { r1 with exporter := { r1.exporter with client := r.2 }
                        calls := r1.calls ++ [Call.GetServiceTimes] }
    match r.1.2 with
    | none =>
      let l := rangeInsts (sendKnown g.serviceTimes ValueType.GaugeValue) r.1.1 r1.c
      { r1 with c := l.1, panic := l.2 }
    | some err =>
      { r1 with log := r1.log ++
          [Println "Could not fetch service times metrics from squid instance: " err] }
  else r1

/-- Lines 113-134 of `Collect`: the infos fetch and loop. -/
def collectInfos {σ : Type} (rules : Validation) (g : Globals) (cl : SquidClient σ)
    (r2 : CollectResult σ) : CollectResult σ :=
  -- insts, err = e.client.GetInfos()
  let r := cl.GetInfos r2.exporter.client
  let r2 := { r2 with exporter := { r2.exporter with client := r.2 }
                      calls := r2.calls ++ [Call.GetInfos] }
  match r.1.2 with
  | none =>
    let l := rangeInsts (sendInfo rules g.infos) r.1.1 r2.c
    { r2 with c := l.1, panic := l.2 }
  | some err =>
    { r2 with log := r2.log ++
        [Println "Could not fetch info metrics from squid instance: " err] }

/-- Line 136 of `Collect`: `e.up.Collect(c)`. -/
def collectUp {σ : Type} (ord : RangeOrder (Sigma fun _ : String => float64))
    (r3 : CollectResult σ) : CollectResult σ :=
  { r3 with c := r3.exporter.up.Collect ord r3.c }

/-- Sequencing of two parts of a function body: after a panic nothing more is
executed. -/
def thenRun {σ : Type} (r : CollectResult σ) (next : CollectResult σ → CollectResult σ) :
    CollectResult σ :=
  match r.panic with
  | some _ => r
  | none => next r

/-- Go method `Exporter.Collect`; `cl` holds the methods of `e.client` and
`ord` is the visiting order of the children of `e.up`. Its four parts run in
order, and a panic in one of the loops ends the call there. -/
def Collect {σ : Type} (rules : Validation) (g : Globals) (cl : SquidClient σ)
    (ord : RangeOrder (Sigma fun _ : String => float64)) (e : Exporter σ) : CollectResult σ :=
  thenRun (thenRun (thenRun (collectCounters g cl e) (collectServiceTimes g cl))
    (collectInfos rules g cl)) (collectUp ord)

/-! ## Vocabulary of the specification -/

/-- The result `GetCounters` returns during `Collect`. -/
def fetchedCounters {σ : Type} (cl : SquidClient σ) (e : Exporter σ) : FetchResult :=
  (cl.GetCounters e.client).1

/-- The result `GetServiceTimes` returns when it is called right after
`GetCounters`, as `Collect` does when service times are extracted. -/
def fetchedServiceTimes {σ : Type} (cl : SquidClient σ) (e : Exporter σ) : FetchResult :=
  (cl.GetServiceTimes (cl.GetCounters e.client).2).1

/-- The state of the client when `Collect` reaches the infos fetch. -/
def clientBeforeInfos {σ : Type} (g : Globals) (cl : SquidClient σ) (e : Exporter σ) : σ :=
  if g.ExtractServiceTimes then (cl.GetServiceTimes (cl.GetCounters e.client).2).2
  else (cl.GetCounters e.client).2

/-- The result `GetInfos` returns when `Collect` reaches it. -/
def fetchedInfos {σ : Type} (g : Globals) (cl : SquidClient σ) (e : Exporter σ) : FetchResult :=
  (cl.GetInfos (clientBeforeInfos g cl e)).1

/-- A descriptor under which `MustNewConstMetric` builds a sample when it is
given no label values: its construction raised no error and it declares no
variable labels. -/
def Usable (d : Desc) : Prop := d.err = none ∧ d.variableLabels = []

instance (d : Desc) : Decidable (Usable d) :=
  inferInstanceAs (Decidable (d.err = none ∧ d.variableLabels = []))

/-- The value `MustNewConstMetric` panics with on descriptor `d`, if any. -/
def descPanic (d : Desc) : Option LibError :=
  match d.err with
  | some er => some er
  | none =>
    if d.variableLabels.length = 0 then none
    else some (LibError.inconsistentCardinality d.variableLabels.length 0)

/-- The sample of record `inst` under descriptor `d`, with type `t`. -/
def sampleUnder (t : ValueType) (inst : Record) (d : Desc) : Metric :=
  { desc := d, valType := t, val := inst.Value, labelValues := [] }

/-- The value a label key has in a sequence of label pairs: that of its last
occurrence. -/
def lastValue (vls : List VarLabel) (k : String) : Option String :=
  (vls.reverse.find? fun vl => vl.Key = k).map fun vl => vl.Value

/-- Every label key of the record passes `checkLabelName`. -/
def LabelsOk (rules : Validation) (inst : Record) : Prop :=
  ∀ vl ∈ inst.VarLabels, checkLabelName rules vl.Key = true

instance (rules : Validation) (inst : Record) : Decidable (LabelsOk rules inst) :=
  inferInstanceAs (Decidable (∀ vl ∈ inst.VarLabels, checkLabelName rules vl.Key = true))

/-- The descriptor synthesized for a `squid_info` record. -/
def infoDesc (rules : Validation) (inst : Record) : Desc :=
  { fqName := "squid_info_service"
    help := "Metrics as string from info on cache_object"
    constLabels := inst.VarLabels.foldl (fun cl vl => cl.insert vl.Key vl.Value) ∅
    variableLabels := []
    err := if LabelsOk rules inst then none else some LibError.invalidLabelName }

/-- The descriptor a counters or service-times record is sent under: the one
the map holds for its key, if any. -/
def knownDescriptor (m : descMap) (inst : Record) : Option Desc :=
  m.lookup inst.Key

/-- The descriptor an info record is sent under: the one the info map holds
for its key if there is one, else the synthesized one if the key is
`squid_info`, else none. -/
def infoDescriptor (rules : Validation) (infos : descMap) (inst : Record) : Option Desc :=
  match infos.lookup inst.Key with
  | some d => some d
  | none => if inst.Key = "squid_info" then some (infoDesc rules inst) else none

/-- No record of the sequence is sent under a descriptor that makes
`MustNewConstMetric` panic. -/
def LoopOk (descOf : Record → Option Desc) (insts : List Record) : Prop :=
  ∀ inst ∈ insts, ∀ d, descOf inst = some d → Usable d

/-- The samples a loop sends before it ends: those of the records up to the
first one whose descriptor makes `MustNewConstMetric` panic. -/
def loopSamples (descOf : Record → Option Desc) (t : ValueType) (insts : List Record) :
    List Metric :=
  (insts.takeWhile fun inst => ((descOf inst).bind descPanic).isNone).filterMap
    fun inst => (descOf inst).map (sampleUnder t inst)

/-- The panic that ends a loop, if any: that of the first record whose
descriptor makes `MustNewConstMetric` panic. -/
def loopPanic (descOf : Record → Option Desc) (insts : List Record) : Option LibError :=
  insts.findSome? fun inst => (descOf inst).bind descPanic

/-- The samples of the counters loop for one fetch result. -/
def counterSamples (g : Globals) (res : FetchResult) : List Metric :=
  if res.2 = none then loopSamples (knownDescriptor g.counters) ValueType.CounterValue res.1
  else []

/-- The panic of the counters loop for one fetch result. -/
def counterPanic (g : Globals) (res : FetchResult) : Option LibError :=
  if res.2 = none then loopPanic (knownDescriptor g.counters) res.1 else none

/-- The samples of the service-times loop for one fetch result. -/
def serviceTimeSamples (g : Globals) (res : FetchResult) : List Metric :=
  if g.ExtractServiceTimes = true ∧ res.2 = none then
    loopSamples (knownDescriptor g.serviceTimes) ValueType.GaugeValue res.1
  else []

/-- The panic of the service-times loop for one fetch result. -/
def serviceTimePanic (g : Globals) (res : FetchResult) : Option LibError :=
  if g.ExtractServiceTimes = true ∧ res.2 = none then
    loopPanic (knownDescriptor g.serviceTimes) res.1
  else none

/-- The samples of the infos loop for one fetch result. -/
def infoSamples (rules : Validation) (g : Globals) (res : FetchResult) : List Metric :=
  if res.2 = none then loopSamples (infoDescriptor rules g.infos) ValueType.GaugeValue res.1
  else []

/-- The panic of the infos loop for one fetch result. -/
def infoPanic (rules : Validation) (g : Globals) (res : FetchResult) : Option LibError :=
  if res.2 = none then loopPanic (infoDescriptor rules g.infos) res.1 else none

/-- The counters loop meets no descriptor that makes `MustNewConstMetric`
panic: every catalogued descriptor a returned record hits is usable. -/
def CountersOk (g : Globals) (res : FetchResult) : Prop :=
  res.2 = none → ∀ inst ∈ res.1, ∀ d, g.counters.lookup inst.Key = some d → Usable d

/-- The service-times loop meets no descriptor that makes
`MustNewConstMetric` panic. -/
def ServiceTimesOk (g : Globals) (res : FetchResult) : Prop :=
  g.ExtractServiceTimes = true → res.2 = none →
    ∀ inst ∈ res.1, ∀ d, g.serviceTimes.lookup inst.Key = some d → Usable d

/-- The infos loop meets no descriptor that makes `MustNewConstMetric`
panic: every catalogued descriptor hit is usable, and every `squid_info`
record outside the info map has label keys that pass `checkLabelName`. -/
def InfosOk (rules : Validation) (g : Globals) (res : FetchResult) : Prop :=
  res.2 = none → ∀ inst ∈ res.1,
    (∀ d, g.infos.lookup inst.Key = some d → Usable d) ∧
    (inst.Key ∉ g.infos → inst.Key = "squid_info" → LabelsOk rules inst)

/-- No call of `MustNewConstMetric` panics during `Collect`. -/
def NoPanic {σ : Type} (rules : Validation) (g : Globals) (cl : SquidClient σ)
    (e : Exporter σ) : Prop :=
  CountersOk g (fetchedCounters cl e) ∧
  ServiceTimesOk g (fetchedServiceTimes cl e) ∧
  InfosOk rules g (fetchedInfos g cl e)

/-- The availability value for the outcome of the counters fetch. -/
def upValue (res : FetchResult) : float64 :=
  if res.2 = none then float64.one else float64.zero

/-- The availability sample of exporter `e` with value `v`. -/
def upSample {σ : Type} (e : Exporter σ) (v : float64) : Metric :=
  { desc := e.up.desc, valType := ValueType.GaugeValue, val := v, labelValues := [e.hostname] }

/-- Sample `x` is the image of record `inst` under the map `m`, with type `t`. -/
def IsImage (m : descMap) (t : ValueType) (inst : Record) (x : Metric) : Prop :=
  m.lookup inst.Key = some x.desc ∧ x.valType = t ∧ x.val = inst.Value ∧ x.labelValues = []

/-- The descriptor synthesized for a `squid_info` record: its name, no
variable labels, and as constant labels the label pairs of the record, a
repeated key keeping its last value. -/
def IsInfoDesc (inst : Record) (d : Desc) : Prop :=
  d.fqName = "squid_info_service" ∧
  d.help = "Metrics as string from info on cache_object" ∧
  d.variableLabels = [] ∧
  d.err = none ∧
  ∀ k, d.constLabels.lookup k = lastValue inst.VarLabels k

/-- Sample `x` is the synthesized gauge sample of the record `inst`. -/
def IsSynthesized (inst : Record) (x : Metric) : Prop :=
  IsInfoDesc inst x.desc ∧ x.valType = ValueType.GaugeValue ∧ x.val = inst.Value ∧
  x.labelValues = []

/-- Sample `x` is what the infos loop sends for record `inst`. -/
def IsInfoImage (infos : descMap) (inst : Record) (x : Metric) : Prop :=
  (inst.Key ∈ infos → IsImage infos ValueType.GaugeValue inst x) ∧
  (inst.Key ∉ infos → IsSynthesized inst x)

/-- The `up` vector of `e` holds no gauge for a host other than `e.hostname`:
true of the exporter `New` returns and kept by `Collect`. -/
def OwnHostOnly {σ : Type} (e : Exporter σ) : Prop :=
  ∀ h ∈ e.up.children.keys, h = e.hostname

instance {σ : Type} (e : Exporter σ) : Decidable (OwnHostOnly e) := by
  unfold OwnHostOnly; infer_instance

instance (g : Globals) (res : FetchResult) : Decidable (CountersOk g res) :=
  decidable_of_iff
    (res.2 = none → ∀ inst ∈ res.1,
      ((g.counters.lookup inst.Key).all fun d => decide (Usable d)) = true)
    (by
      unfold CountersOk
      refine imp_congr_right fun _ => forall₂_congr fun inst _ => ?_
      cases g.counters.lookup inst.Key <;> simp)

instance (g : Globals) (res : FetchResult) : Decidable (ServiceTimesOk g res) :=
  decidable_of_iff
    (g.ExtractServiceTimes = true → res.2 = none → ∀ inst ∈ res.1,
      ((g.serviceTimes.lookup inst.Key).all fun d => decide (Usable d)) = true)
    (by
      unfold ServiceTimesOk
      refine imp_congr_right fun _ => imp_congr_right fun _ => forall₂_congr fun inst _ => ?_
      cases g.serviceTimes.lookup inst.Key <;> simp)

instance (rules : Validation) (g : Globals) (res : FetchResult) :
    Decidable (InfosOk rules g res) :=
  decidable_of_iff
    (res.2 = none → ∀ inst ∈ res.1,
      ((g.infos.lookup inst.Key).all fun d => decide (Usable d)) = true ∧
      (inst.Key ∉ g.infos → inst.Key = "squid_info" → LabelsOk rules inst))
    (by
      unfold InfosOk
      refine imp_congr_right fun _ => forall₂_congr fun inst _ => and_congr_left fun _ => ?_
      cases g.infos.lookup inst.Key <;> simp)

instance {σ : Type} (rules : Validation) (g : Globals) (cl : SquidClient σ) (e : Exporter σ) :
    Decidable (NoPanic rules g cl e) :=
  inferInstanceAs (Decidable
    (CountersOk g (fetchedCounters cl e) ∧
     ServiceTimesOk g (fetchedServiceTimes cl e) ∧
     InfosOk rules g (fetchedInfos g cl e)))

/-! ## Example data -/

/-- A client without state that answers the three fetches with fixed results. -/
def fixedClient (rc rs ri : FetchResult) : SquidClient Unit :=
  { GetCounters := fun s => (rc, s)
    GetServiceTimes := fun s => (rs, s)
    GetInfos := fun s => (ri, s) }

/-- The counter descriptor of the end-to-end scenario. -/
def requestsDesc : Desc :=
  NewDesc legacyValidation "squid_client_http_requests_total"
    "The total number of client requests" [] ∅

/-- A counter descriptor that declares the variable label `host`. -/
def labelledDesc : Desc :=
  NewDesc legacyValidation "squid_client_http_requests_total"
    "The total number of client requests" ["host"] ∅

/-- A service-time descriptor. -/
def httpTimeDesc : Desc :=
  NewDesc legacyValidation "squid_HTTP_Requests_All_50" "Service Time Percentiles 50pct" [] ∅

/-- An info descriptor. -/
def clientsDesc : Desc :=
  NewDesc legacyValidation "squid_Number_of_clients_accessing_cache" "Number of clients" [] ∅

/-- A descriptor catalogued under the key `squid_info`. -/
def cataloguedInfoDesc : Desc :=
  NewDesc legacyValidation "squid_info" "Catalogued info" [] ∅

/-- Package state of the end-to-end scenario: service times not extracted,
yet a service-time map left by an earlier `New`. -/
def exampleGlobals : Globals :=
  { counters := AList.singleton "client_http.requests" requestsDesc
    serviceTimes := AList.singleton "HTTP_Requests_All_50" httpTimeDesc
    ExtractServiceTimes := false
    infos := AList.singleton "Number_of_clients_accessing_cache" clientsDesc }

/-- The same package state with service times extracted. -/
def timesGlobals : Globals := { exampleGlobals with ExtractServiceTimes := true }

/-- A package state whose info map has an entry for the key `squid_info`. -/
def cataloguedInfoGlobals : Globals :=
  { exampleGlobals with infos := AList.singleton "squid_info" cataloguedInfoDesc }

/-- A package state whose counters map holds a descriptor with a variable
label. -/
def labelledGlobals : Globals :=
  { exampleGlobals with counters := AList.singleton "client_http.requests" labelledDesc }

/-- The counters record of the end-to-end scenario. -/
def requestsRecord : Record :=
  { Key := "client_http.requests", Value := float64.v1024, VarLabels := [] }

/-- An info record with a catalogued key. -/
def clientsRecord : Record :=
  { Key := "Number_of_clients_accessing_cache", Value := float64.one, VarLabels := [] }

/-- The `squid_info` record with the label `version` set to `5.7`. -/
def versionRecord : Record :=
  { Key := "squid_info", Value := float64.one, VarLabels := [⟨"version", "5.7"⟩] }

/-- A `squid_info` record with a reserved label key. -/
def reservedRecord : Record :=
  { Key := "squid_info", Value := float64.one, VarLabels := [⟨"__reserved", "x"⟩] }

/-- A `squid_info` record that gives the label `version` twice. -/
def repeatedLabelRecord : Record :=
  { Key := "squid_info", Value := float64.one,
    VarLabels := [⟨"version", "5.6"⟩, ⟨"service", "squid"⟩, ⟨"version", "5.7"⟩] }

/-- A client whose three fetches succeed. -/
def exampleClient : SquidClient Unit :=
  fixedClient ([requestsRecord, ⟨"unknown.counter", float64.one, []⟩], none)
    ([⟨"HTTP_Requests_All_50", float64.v1024, []⟩], none)
    ([clientsRecord, versionRecord], none)

/-- A client whose counters fetch fails and whose other fetches succeed. -/
def countersDownClient : SquidClient Unit :=
  fixedClient ([], some "connection refused")
    ([⟨"HTTP_Requests_All_50", float64.v1024, []⟩], none)
    ([clientsRecord, versionRecord], none)

/-- A client whose three fetches fail. -/
def downClient : SquidClient Unit :=
  fixedClient ([], some "connection refused") ([], some "connection refused")
    ([], some "connection refused")

/-- A client whose infos fetch returns the `squid_info` record alone. -/
def versionClient : SquidClient Unit :=
  fixedClient ([], none) ([], none) ([versionRecord], none)

/-- A client whose three fetches succeed and whose infos hold a `squid_info`
record with a reserved label key. -/
def reservedClient : SquidClient Unit :=
  fixedClient ([requestsRecord], none)
    ([⟨"HTTP_Requests_All_50", float64.v1024, []⟩], none)
    ([clientsRecord, reservedRecord], none)

/-- A client whose infos fetch returns a record with a repeated label. -/
def repeatedLabelClient : SquidClient Unit :=
  fixedClient ([], none) ([], none) ([clientsRecord, repeatedLabelRecord], none)

/-- Catalogue builders and client constructor for the examples. -/
def exampleDeps : Deps Unit :=
  { generateSquidCounters := fun _ => exampleGlobals.counters
    generateSquidServiceTimes := fun _ => exampleGlobals.serviceTimes
    generateSquidInfos := fun _ => exampleGlobals.infos
    NewCacheObjectClient := fun _ _ _ _ => () }

/-- Configuration for the examples. -/
def exampleConfig : CollectorConfig :=
  { Hostname := "localhost", Port := 3128, Login := "", Password := "", Labels := ∅,
    ProxyHeader := "" }

/-- The exporter `New` returns for the example configuration. -/
def exampleExporter : Exporter Unit :=
  (New legacyValidation exampleDeps exampleGlobals exampleConfig).2

/-! ## Lemmas on the library calls and the loops -/

theorem descPanic_eq_none_iff (d : Desc) : descPanic d = none ↔ Usable d := by
  unfold descPanic Usable
  cases h : d.err with
  | some er => simp
  | none =>
    by_cases hv : d.variableLabels.length = 0
    · simp [hv, List.length_eq_zero.mp hv]
    · have : d.variableLabels ≠ [] := fun h0 => hv (by simp [h0])
      simp [hv, this]

theorem MustNewConstMetric_eq (d : Desc) (t : ValueType) (v : float64) :
    MustNewConstMetric d t v =
      match descPanic d with
      | some p => Except.error p
      | none => Except.ok { desc := d, valType := t, val := v, labelValues := [] } := by
  unfold MustNewConstMetric NewConstMetric descPanic
  cases h : d.err with
  | some er => rfl
  | none =>
    by_cases hv : d.variableLabels.length = 0
    · simp [hv]
    · simp [hv]

theorem sendKnown_eq (m : descMap) (t : ValueType) (c : List Metric) (inst : Record) :
    sendKnown m t c inst =
      match (knownDescriptor m inst).bind descPanic with
      | some p => Except.error p
      | none =>
        Except.ok (c ++ ((knownDescriptor m inst).map (sampleUnder t inst)).toList) := by
  unfold sendKnown knownDescriptor
  cases h : m.lookup inst.Key with
  | none => simp
  | some d =>
    simp only [Option.some_bind, Option.map_some', Option.toList_some, MustNewConstMetric_eq]
    cases hp : descPanic d <;> simp [sampleUnder]

theorem BuildFQName_info : BuildFQName namespace_ "info" "service" = "squid_info_service" := by
  decide

theorem legacyMetricName_info : legacyMetricName "squid_info_service" = true := by
  decide

theorem lookup_foldl_insert (vls : List VarLabel) (init : Labels) (k : String) :
    (vls.foldl (fun cl vl => cl.insert vl.Key vl.Value) init).lookup k =
      (lastValue vls k).or (init.lookup k) := by
  induction vls generalizing init with
  | nil => simp [lastValue]
  | cons vl rest ih =>
    rw [List.foldl_cons, ih]
    unfold lastValue
    rw [List.reverse_cons, List.find?_append]
    cases hr : rest.reverse.find? (fun vl => decide (vl.Key = k)) with
    | some w => simp
    | none =>
      by_cases hk : vl.Key = k
      · subst hk
        simp [AList.lookup_insert]
      · have hk2 : k ≠ vl.Key := fun h => hk h.symm
        simp [hk, AList.lookup_insert_ne hk2]

theorem mem_keys_foldl_insert (vls : List VarLabel) (k : String) :
    k ∈ (vls.foldl (fun cl vl => cl.insert vl.Key vl.Value) (∅ : Labels)).keys ↔
      ∃ vl ∈ vls, vl.Key = k := by
  rw [← AList.mem_keys, ← AList.lookup_isSome, lookup_foldl_insert]
  simp only [AList.lookup_empty, Option.or_none, lastValue, Option.isSome_map']
  rw [List.find?_isSome]
  simp

theorem NewDesc_info (rules : Validation) (inst : Record) :
    NewDesc rules (BuildFQName namespace_ "info" "service")
        "Metrics as string from info on cache_object" []
        (inst.VarLabels.foldl (fun cl vl => cl.insert vl.Key vl.Value) ∅) =
      infoDesc rules inst := by
  have hname : rules.IsValidMetricName "squid_info_service" = true :=
    rules.metric_legacy _ legacyMetricName_info
  unfold NewDesc infoDesc
  rw [BuildFQName_info]
  simp only [hname, Bool.true_eq_false, if_false, List.any_nil, List.append_nil,
    AList.keys_nodup, not_true_eq_false]
  congr 1
  by_cases hl : LabelsOk rules inst
  · have : ((inst.VarLabels.foldl (fun cl vl => cl.insert vl.Key vl.Value)
        (∅ : Labels)).keys.any fun l => !checkLabelName rules l) = false := by
      rw [List.any_eq_false]
      intro l hmem
      obtain ⟨vl, hvl, rfl⟩ := (mem_keys_foldl_insert _ _).mp hmem
      simp [hl vl hvl]
    simp [this, hl]
  · have : ((inst.VarLabels.foldl (fun cl vl => cl.insert vl.Key vl.Value)
        (∅ : Labels)).keys.any fun l => !checkLabelName rules l) = true := by
      unfold LabelsOk at hl
      push_neg at hl
      obtain ⟨vl, hvl, hbad⟩ := hl
      rw [List.any_eq_true]
      exact ⟨vl.Key, (mem_keys_foldl_insert _ _).mpr ⟨vl, hvl, rfl⟩, by simpa using hbad⟩
    simp [this, hl]

theorem sendInfo_eq (rules : Validation) (infos : descMap) (c : List Metric) (inst : Record) :
    sendInfo rules infos c inst =
      match (infoDescriptor rules infos inst).bind descPanic with
      | some p => Except.error p
      | none =>
        Except.ok (c ++ ((infoDescriptor rules infos inst).map
          (sampleUnder ValueType.GaugeValue inst)).toList) := by
  unfold sendInfo infoDescriptor
  cases h : infos.lookup inst.Key with
  | some d =>
    simp only [Option.some_bind, Option.map_some', Option.toList_some, MustNewConstMetric_eq]
    cases hp : descPanic d <;> simp [sampleUnder]
  | none =>
    by_cases hk : inst.Key = "squid_info"
    · simp only [hk, if_true, NewDesc_info, Option.some_bind, Option.map_some',
        Option.toList_some, MustNewConstMetric_eq]
      cases hp : descPanic (infoDesc rules inst) <;> simp [sampleUnder]
    · simp [hk]

theorem rangeInsts_eq (body : List Metric → Record → Except LibError (List Metric))
    (descOf : Record → Option Desc) (t : ValueType)
    (hbody : ∀ c inst, body c inst =
      match (descOf inst).bind descPanic with
      | some p => Except.error p
      | none => Except.ok (c ++ ((descOf inst).map (sampleUnder t inst)).toList))
    (insts : List Record) (c : List Metric) :
    rangeInsts body insts c = (c ++ loopSamples descOf t insts, loopPanic descOf insts) := by
  induction insts generalizing c with
  | nil => simp [rangeInsts, loopSamples, loopPanic]
  | cons inst rest ih =>
    unfold rangeInsts
    rw [hbody]
    cases hp : (descOf inst).bind descPanic with
    | some p =>
      simp [loopSamples, loopPanic, List.takeWhile_cons, List.findSome?_cons, hp]
    | none =>
      simp only [ih]
      cases hd : descOf inst with
      | none =>
        simp [loopSamples, loopPanic, List.takeWhile_cons, List.findSome?_cons, hp, hd,
          List.filterMap_cons]
      | some d =>
        have hdp : descPanic d = none := by simpa [hd] using hp
        simp [loopSamples, loopPanic, List.takeWhile_cons, List.findSome?_cons, hd, hdp,
          List.filterMap_cons]

theorem rangeInsts_sendKnown (m : descMap) (t : ValueType) (insts : List Record)
    (c : List Metric) :
    rangeInsts (sendKnown m t) insts c =
      (c ++ loopSamples (knownDescriptor m) t insts, loopPanic (knownDescriptor m) insts) :=
  rangeInsts_eq _ _ t (sendKnown_eq m t) insts c

theorem rangeInsts_sendInfo (rules : Validation) (infos : descMap) (insts : List Record)
    (c : List Metric) :
    rangeInsts (sendInfo rules infos) insts c =
      (c ++ loopSamples (infoDescriptor rules infos) ValueType.GaugeValue insts,
        loopPanic (infoDescriptor rules infos) insts) :=
  rangeInsts_eq _ _ ValueType.GaugeValue (sendInfo_eq rules infos) insts c

theorem foldl_send_map {α β : Type} (f : α → β) (l : List α) (c : List β) :
    l.foldl (fun c a => c ++ [f a]) c = c ++ l.map f := by
  induction l generalizing c with
  | nil => simp
  | cons a rest ih => rw [List.foldl_cons, ih]; simp

theorem rangeSend_eq (ord : RangeOrder (Sigma fun _ : String => Desc)) (m : descMap)
    (ch : List Desc) :
    rangeSend ord m ch = ch ++ (ord.visit m.entries).map fun kv => kv.2 := by
  unfold rangeSend
  exact foldl_send_map (fun kv : (Sigma fun _ : String => Desc) => kv.2) _ ch

theorem GaugeVec_Collect_eq (v : GaugeVec) (ord : RangeOrder (Sigma fun _ : String => float64))
    (c : List Metric) :
    v.Collect ord c = c ++ (ord.visit v.children.entries).map fun kv =>
      { desc := v.desc, valType := ValueType.GaugeValue, val := kv.2, labelValues := [kv.1] } := by
  unfold GaugeVec.Collect
  exact foldl_send_map (fun kv : (Sigma fun _ : String => float64) =>
    ({ desc := v.desc, valType := ValueType.GaugeValue, val := kv.2,
       labelValues := [kv.1] } : Metric)) _ c

/-! ## Lemmas on `Collect` -/

theorem collectCounters_eq {σ : Type} (g : Globals) (cl : SquidClient σ) (e : Exporter σ) :
    (collectCounters g cl e).globals = g ∧
    (collectCounters g cl e).exporter.client = (cl.GetCounters e.client).2 ∧
    (collectCounters g cl e).exporter.hostname = e.hostname ∧
    (collectCounters g cl e).exporter.up =
      e.up.WithSet e.hostname (upValue (fetchedCounters cl e)) ∧
    (collectCounters g cl e).c = counterSamples g (fetchedCounters cl e) ∧
    (collectCounters g cl e).calls = [Call.GetCounters] ∧
    (collectCounters g cl e).panic = counterPanic g (fetchedCounters cl e) := by
  unfold collectCounters counterSamples counterPanic upValue fetchedCounters
  dsimp only
  cases h : (cl.GetCounters e.client).1.2 <;> simp [rangeInsts_sendKnown]

theorem collectServiceTimes_eq {σ : Type} (g : Globals) (cl : SquidClient σ)
    (r : CollectResult σ) (hr : r.panic = none) :
    (collectServiceTimes g cl r).globals = r.globals ∧
    (collectServiceTimes g cl r).exporter.client =
      (if g.ExtractServiceTimes then (cl.GetServiceTimes r.exporter.client).2
       else r.exporter.client) ∧
    (collectServiceTimes g cl r).exporter.hostname = r.exporter.hostname ∧
    (collectServiceTimes g cl r).exporter.up = r.exporter.up ∧
    (collectServiceTimes g cl r).c =
      r.c ++ serviceTimeSamples g (cl.GetServiceTimes r.exporter.client).1 ∧
    (collectServiceTimes g cl r).calls =
      r.calls ++ (if g.ExtractServiceTimes then [Call.GetServiceTimes] else []) ∧
    (collectServiceTimes g cl r).panic =
      serviceTimePanic g (cl.GetServiceTimes r.exporter.client).1 := by
  unfold collectServiceTimes serviceTimeSamples serviceTimePanic
  cases hf : g.ExtractServiceTimes
  · simp [hr]
  · dsimp only
    cases h : (cl.GetServiceTimes r.exporter.client).1.2 <;>
      simp [rangeInsts_sendKnown, hr]

theorem collectInfos_eq {σ : Type} (rules : Validation) (g : Globals) (cl : SquidClient σ)
    (r : CollectResult σ) (hr : r.panic = none) :
    (collectInfos rules g cl r).globals = r.globals ∧
    (collectInfos rules g cl r).exporter.client = (cl.GetInfos r.exporter.client).2 ∧
    (collectInfos rules g cl r).exporter.hostname = r.exporter.hostname ∧
    (collectInfos rules g cl r).exporter.up = r.exporter.up ∧
    (collectInfos rules g cl r).c =
      r.c ++ infoSamples rules g (cl.GetInfos r.exporter.client).1 ∧
    (collectInfos rules g cl r).calls = r.calls ++ [Call.GetInfos] ∧
    (collectInfos rules g cl r).panic = infoPanic rules g (cl.GetInfos r.exporter.client).1 := by
  unfold collectInfos infoSamples infoPanic
  dsimp only
  cases h : (cl.GetInfos r.exporter.client).1.2 <;> simp [rangeInsts_sendInfo, hr]

theorem thenRun_some {σ : Type} (r : CollectResult σ) (next : CollectResult σ → CollectResult σ)
    (h : r.panic.isSome = true) : thenRun r next = r := by
  unfold thenRun
  cases hp : r.panic with
  | none => simp [hp] at h
  | some p => rfl

theorem thenRun_none {σ : Type} (r : CollectResult σ) (next : CollectResult σ → CollectResult σ)
    (h : r.panic = none) : thenRun r next = next r := by
  unfold thenRun
  simp [h]

/-- All of `Collect` at once: the fields of its result in terms of the three
fetch results. -/
theorem Collect_eq {σ : Type} (rules : Validation) (g : Globals) (cl : SquidClient σ)
    (ord : RangeOrder (Sigma fun _ : String => float64)) (e : Exporter σ) :
    (Collect rules g cl ord e).globals = g ∧
    (Collect rules g cl ord e).exporter.hostname = e.hostname ∧
    (Collect rules g cl ord e).exporter.up =
      e.up.WithSet e.hostname (upValue (fetchedCounters cl e)) ∧
    (Collect rules g cl ord e).c =
      counterSamples g (fetchedCounters cl e) ++
        (if (counterPanic g (fetchedCounters cl e)).isSome then []
         else serviceTimeSamples g (fetchedServiceTimes cl e) ++
           (if (serviceTimePanic g (fetchedServiceTimes cl e)).isSome then []
            else infoSamples rules g (fetchedInfos g cl e) ++
              (if (infoPanic rules g (fetchedInfos g cl e)).isSome then []
               else (e.up.WithSet e.hostname (upValue (fetchedCounters cl e))).Collect
                 ord []))) ∧
    (Collect rules g cl ord e).calls =
      Call.GetCounters ::
        (if (counterPanic g (fetchedCounters cl e)).isSome then []
         else (if g.ExtractServiceTimes then [Call.GetServiceTimes] else []) ++
           (if (serviceTimePanic g (fetchedServiceTimes cl e)).isSome then []
            else [Call.GetInfos])) ∧
    (Collect rules g cl ord e).panic =
      (counterPanic g (fetchedCounters cl e)).or
        ((serviceTimePanic g (fetchedServiceTimes cl e)).or
          (infoPanic rules g (fetchedInfos g cl e))) := by
  obtain ⟨c1, c2, c3, c4, c5, c6, c7⟩ := collectCounters_eq g cl e
  unfold Collect
  cases hpc : counterPanic g (fetchedCounters cl e) with
  | some p =>
    have h1 : (collectCounters g cl e).panic.isSome = true := by simp [c7, hpc]
    rw [thenRun_some _ _ h1, thenRun_some _ _ h1, thenRun_some _ _ h1]
    simp [c1, c3, c4, c5, c6, c7, hpc]
  | none =>
    have h1 : (collectCounters g cl e).panic = none := by rw [c7, hpc]
    rw [thenRun_none _ _ h1]
    obtain ⟨s1, s2, s3, s4, s5, s6, s7⟩ :=
      collectServiceTimes_eq g cl (collectCounters g cl e) h1
    rw [c2] at s2 s5 s7
    have hfs : (cl.GetServiceTimes (cl.GetCounters e.client).2).1 =
        fetchedServiceTimes cl e := rfl
    rw [hfs] at s5 s7
    cases hps : serviceTimePanic g (fetchedServiceTimes cl e) with
    | some p =>
      have h2 : (collectServiceTimes g cl (collectCounters g cl e)).panic.isSome = true := by
        simp [s7, hps]
      rw [thenRun_some _ _ h2, thenRun_some _ _ h2]
      simp [s1, s3, s4, s5, s6, s7, c1, c3, c4, c5, c6, hps]
    | none =>
      have h2 : (collectServiceTimes g cl (collectCounters g cl e)).panic = none := by
        rw [s7, hps]
      rw [thenRun_none _ _ h2]
      obtain ⟨i1, i2, i3, i4, i5, i6, i7⟩ :=
        collectInfos_eq rules g cl (collectServiceTimes g cl (collectCounters g cl e)) h2
      have hfi : (cl.GetInfos
          (collectServiceTimes g cl (collectCounters g cl e)).exporter.client).1 =
          fetchedInfos g cl e := by
        rw [s2]; rfl
      rw [hfi] at i5 i7
      cases hpi : infoPanic rules g (fetchedInfos g cl e) with
      | some p =>
        have h3 : (collectInfos rules g cl
            (collectServiceTimes g cl (collectCounters g cl e))).panic.isSome = true := by
          simp [i7, hpi]
        rw [thenRun_some _ _ h3]
        simp [i1, i3, i4, i5, i6, i7, s1, s3, s4, s5, s6, c1, c3, c4, c5, c6, hpi]
      | none =>
        have h3 : (collectInfos rules g cl
            (collectServiceTimes g cl (collectCounters g cl e))).panic = none := by
          rw [i7, hpi]
        rw [thenRun_none _ _ h3]
        simp [collectUp, GaugeVec_Collect_eq, i1, i3, i4, i5, i6, i7, s1, s3, s4, s5, s6,
          c1, c3, c4, c5, c6, hpi]

theorem Collect_globals {σ : Type} (rules : Validation) (g : Globals) (cl : SquidClient σ)
    (ord : RangeOrder (Sigma fun _ : String => float64)) (e : Exporter σ) :
    (Collect rules g cl ord e).globals = g := (Collect_eq rules g cl ord e).1

theorem Collect_hostname {σ : Type} (rules : Validation) (g : Globals) (cl : SquidClient σ)
    (ord : RangeOrder (Sigma fun _ : String => float64)) (e : Exporter σ) :
    (Collect rules g cl ord e).exporter.hostname = e.hostname := (Collect_eq rules g cl ord e).2.1

theorem Collect_up {σ : Type} (rules : Validation) (g : Globals) (cl : SquidClient σ)
    (ord : RangeOrder (Sigma fun _ : String => float64)) (e : Exporter σ) :
    (Collect rules g cl ord e).exporter.up =
      e.up.WithSet e.hostname (upValue (fetchedCounters cl e)) :=
  (Collect_eq rules g cl ord e).2.2.1

theorem Collect_c {σ : Type} (rules : Validation) (g : Globals) (cl : SquidClient σ)
    (ord : RangeOrder (Sigma fun _ : String => float64)) (e : Exporter σ) :
    (Collect rules g cl ord e).c =
      counterSamples g (fetchedCounters cl e) ++
        (if (counterPanic g (fetchedCounters cl e)).isSome then []
         else serviceTimeSamples g (fetchedServiceTimes cl e) ++
           (if (serviceTimePanic g (fetchedServiceTimes cl e)).isSome then []
            else infoSamples rules g (fetchedInfos g cl e) ++
              (if (infoPanic rules g (fetchedInfos g cl e)).isSome then []
               else (e.up.WithSet e.hostname (upValue (fetchedCounters cl e))).Collect
                 ord []))) :=
  (Collect_eq rules g cl ord e).2.2.2.1

theorem Collect_calls {σ : Type} (rules : Validation) (g : Globals) (cl : SquidClient σ)
    (ord : RangeOrder (Sigma fun _ : String => float64)) (e : Exporter σ) :
    (Collect rules g cl ord e).calls =
      Call.GetCounters ::
        (if (counterPanic g (fetchedCounters cl e)).isSome then []
         else (if g.ExtractServiceTimes then [Call.GetServiceTimes] else []) ++
           (if (serviceTimePanic g (fetchedServiceTimes cl e)).isSome then []
            else [Call.GetInfos])) :=
  (Collect_eq rules g cl ord e).2.2.2.2.1

theorem Collect_panic {σ : Type} (rules : Validation) (g : Globals) (cl : SquidClient σ)
    (ord : RangeOrder (Sigma fun _ : String => float64)) (e : Exporter σ) :
    (Collect rules g cl ord e).panic =
      (counterPanic g (fetchedCounters cl e)).or
        ((serviceTimePanic g (fetchedServiceTimes cl e)).or
          (infoPanic rules g (fetchedInfos g cl e))) :=
  (Collect_eq rules g cl ord e).2.2.2.2.2

/-! ## Lemmas on panics -/

theorem bind_descPanic_eq_none_iff (o : Option Desc) :
    o.bind descPanic = none ↔ ∀ d, o = some d → Usable d := by
  cases o with
  | none => simp
  | some d => simp [descPanic_eq_none_iff]

theorem loopPanic_eq_none_iff (descOf : Record → Option Desc) (insts : List Record) :
    loopPanic descOf insts = none ↔ LoopOk descOf insts := by
  unfold loopPanic LoopOk
  rw [List.findSome?_eq_none_iff]
  constructor
  · intro h inst hmem
    exact (bind_descPanic_eq_none_iff _).mp (h inst hmem)
  · intro h inst hmem
    exact (bind_descPanic_eq_none_iff _).mpr (h inst hmem)

theorem loopSamples_of_ok (descOf : Record → Option Desc) (t : ValueType)
    (insts : List Record) (h : LoopOk descOf insts) :
    loopSamples descOf t insts =
      insts.filterMap fun inst => (descOf inst).map (sampleUnder t inst) := by
  unfold loopSamples
  have htw : (insts.takeWhile fun inst => ((descOf inst).bind descPanic).isNone) = insts := by
    rw [List.takeWhile_eq_self_iff]
    intro inst hmem
    have := (bind_descPanic_eq_none_iff _).mpr (h inst hmem)
    simp [this]
  rw [htw]

theorem infoDesc_usable_iff (rules : Validation) (inst : Record) :
    Usable (infoDesc rules inst) ↔ LabelsOk rules inst := by
  unfold Usable infoDesc
  by_cases h : LabelsOk rules inst <;> simp [h]

theorem counterPanic_eq_none_iff (g : Globals) (res : FetchResult) :
    counterPanic g res = none ↔ CountersOk g res := by
  unfold counterPanic CountersOk
  by_cases h : res.2 = none
  · simp only [h, if_true, true_implies]
    exact loopPanic_eq_none_iff _ _
  · simp [h]

theorem serviceTimePanic_eq_none_iff (g : Globals) (res : FetchResult) :
    serviceTimePanic g res = none ↔ ServiceTimesOk g res := by
  unfold serviceTimePanic ServiceTimesOk
  by_cases h : g.ExtractServiceTimes = true ∧ res.2 = none
  · simp only [h, and_self, if_true, true_implies]
    exact loopPanic_eq_none_iff _ _
  · simp only [h, if_false, true_iff]
    intro h1 h2
    exact absurd ⟨h1, h2⟩ h

theorem infoDescriptor_ok_iff (rules : Validation) (infos : descMap) (inst : Record) :
    (∀ d, infoDescriptor rules infos inst = some d → Usable d) ↔
      ((∀ d, infos.lookup inst.Key = some d → Usable d) ∧
       (inst.Key ∉ infos → inst.Key = "squid_info" → LabelsOk rules inst)) := by
  unfold infoDescriptor
  cases h : infos.lookup inst.Key with
  | some d =>
    have hm : inst.Key ∈ infos := AList.lookup_isSome.mp (by simp [h])
    simp [hm]
  | none =>
    have hm : inst.Key ∉ infos := AList.lookup_eq_none.mp h
    by_cases hk : inst.Key = "squid_info"
    · simp [hk, hm, infoDesc_usable_iff]
      exact Or.inl (by simpa [hk] using hm)
    · simp [hk]

theorem infoLoopOk_iff (rules : Validation) (infos : descMap) (insts : List Record) :
    LoopOk (infoDescriptor rules infos) insts ↔
      ∀ inst ∈ insts, (∀ d, infos.lookup inst.Key = some d → Usable d) ∧
        (inst.Key ∉ infos → inst.Key = "squid_info" → LabelsOk rules inst) := by
  unfold LoopOk
  constructor
  · intro h inst hmem
    exact (infoDescriptor_ok_iff rules infos inst).mp (h inst hmem)
  · intro h inst hmem
    exact (infoDescriptor_ok_iff rules infos inst).mpr (h inst hmem)

theorem infoPanic_eq_none_iff (rules : Validation) (g : Globals) (res : FetchResult) :
    infoPanic rules g res = none ↔ InfosOk rules g res := by
  unfold infoPanic InfosOk
  by_cases h : res.2 = none
  · simp only [h, if_true, true_implies]
    rw [loopPanic_eq_none_iff, infoLoopOk_iff]
  · simp [h]

theorem Collect_panic_eq_none_iff {σ : Type} (rules : Validation) (g : Globals)
    (cl : SquidClient σ) (ord : RangeOrder (Sigma fun _ : String => float64))
    (e : Exporter σ) :
    (Collect rules g cl ord e).panic = none ↔ NoPanic rules g cl e := by
  rw [Collect_panic]
  unfold NoPanic
  rw [← counterPanic_eq_none_iff, ← serviceTimePanic_eq_none_iff, ← infoPanic_eq_none_iff]
  cases counterPanic g (fetchedCounters cl e) <;>
    cases serviceTimePanic g (fetchedServiceTimes cl e) <;>
    cases infoPanic rules g (fetchedInfos g cl e) <;> simp

theorem Collect_c_of_noPanic {σ : Type} (rules : Validation) (g : Globals)
    (cl : SquidClient σ) (ord : RangeOrder (Sigma fun _ : String => float64))
    (e : Exporter σ) (hnp : NoPanic rules g cl e) :
    (Collect rules g cl ord e).c =
      counterSamples g (fetchedCounters cl e) ++
        (serviceTimeSamples g (fetchedServiceTimes cl e) ++
          (infoSamples rules g (fetchedInfos g cl e) ++
            (e.up.WithSet e.hostname (upValue (fetchedCounters cl e))).Collect ord [])) := by
  rw [Collect_c]
  have h1 := (counterPanic_eq_none_iff g _).mpr hnp.1
  have h2 := (serviceTimePanic_eq_none_iff g _).mpr hnp.2.1
  have h3 := (infoPanic_eq_none_iff rules g _).mpr hnp.2.2
  simp [h1, h2, h3]

theorem Collect_calls_of_noPanic {σ : Type} (rules : Validation) (g : Globals)
    (cl : SquidClient σ) (ord : RangeOrder (Sigma fun _ : String => float64))
    (e : Exporter σ) (hc : CountersOk g (fetchedCounters cl e))
    (hs : ServiceTimesOk g (fetchedServiceTimes cl e)) :
    (Collect rules g cl ord e).calls =
      Call.GetCounters ::
        ((if g.ExtractServiceTimes then [Call.GetServiceTimes] else []) ++ [Call.GetInfos]) := by
  rw [Collect_calls]
  have h1 := (counterPanic_eq_none_iff g _).mpr hc
  have h2 := (serviceTimePanic_eq_none_iff g _).mpr hs
  simp [h1, h2]

/-! ## Lemmas on the availability vector -/

theorem kerase_own (a : String) (l : List (Sigma fun _ : String => float64))
    (hn : l.NodupKeys) (hk : ∀ h ∈ l.keys, h = a) : l.kerase a = [] := by
  cases l with
  | nil => rfl
  | cons x xs =>
    have hx : x.1 = a := hk x.1 (by simp [List.keys])
    have hxs : xs = [] := by
      cases xs with
      | nil => rfl
      | cons y ys =>
        exfalso
        have hy : y.1 = a := hk y.1 (by simp [List.keys])
        rw [List.nodupKeys_cons] at hn
        apply hn.1
        rw [hx, ← hy]
        simp [List.keys]
    subst hxs
    cases x with
    | mk k v =>
      simp only at hx
      subst hx
      simp

theorem WithSet_own_entries {σ : Type} (e : Exporter σ) (hown : OwnHostOnly e) (v : float64) :
    (e.up.WithSet e.hostname v).children.entries = [⟨e.hostname, v⟩] := by
  unfold GaugeVec.WithSet
  simp only [AList.insert_entries]
  rw [kerase_own e.hostname e.up.children.entries e.up.children.nodupKeys hown]

theorem visit_singleton {α : Type} (ord : RangeOrder α) (a : α) : ord.visit [a] = [a] :=
  List.perm_singleton.mp (ord.perm [a])

theorem up_Collect_own {σ : Type} (e : Exporter σ) (hown : OwnHostOnly e) (v : float64)
    (ord : RangeOrder (Sigma fun _ : String => float64)) (c : List Metric) :
    (e.up.WithSet e.hostname v).Collect ord c = c ++ [upSample e v] := by
  rw [GaugeVec_Collect_eq, WithSet_own_entries e hown v, visit_singleton]
  simp [upSample, GaugeVec.WithSet]

theorem Collect_c_own {σ : Type} (rules : Validation) (g : Globals) (cl : SquidClient σ)
    (ord : RangeOrder (Sigma fun _ : String => float64)) (e : Exporter σ)
    (hown : OwnHostOnly e) (hnp : NoPanic rules g cl e) :
    (Collect rules g cl ord e).c =
      counterSamples g (fetchedCounters cl e) ++
        (serviceTimeSamples g (fetchedServiceTimes cl e) ++
          (infoSamples rules g (fetchedInfos g cl e) ++
            [upSample e (upValue (fetchedCounters cl e))])) := by
  rw [Collect_c_of_noPanic rules g cl ord e hnp, up_Collect_own e hown]
  simp

theorem New_own {σ : Type} (rules : Validation) (deps : Deps σ) (g : Globals)
    (c : CollectorConfig) : OwnHostOnly (New rules deps g c).2 := by
  intro h hh
  simp [New, NewGaugeVec] at hh

theorem Collect_own {σ : Type} (rules : Validation) (g : Globals) (cl : SquidClient σ)
    (ord : RangeOrder (Sigma fun _ : String => float64)) (e : Exporter σ)
    (hown : OwnHostOnly e) : OwnHostOnly (Collect rules g cl ord e).exporter := by
  intro h hh
  rw [Collect_up] at hh
  rw [Collect_hostname]
  have hent := WithSet_own_entries e hown (upValue (fetchedCounters cl e))
  unfold AList.keys at hh
  rw [hent] at hh
  simpa [List.keys] using hh

/-! ## Lemmas on the samples of a family -/

theorem loopSamples_valType (descOf : Record → Option Desc) (t : ValueType)
    (insts : List Record) :
    ∀ x ∈ loopSamples descOf t insts, x.valType = t ∧ x.labelValues = [] := by
  intro x hx
  unfold loopSamples at hx
  rw [List.mem_filterMap] at hx
  obtain ⟨inst, _, hi⟩ := hx
  cases hd : descOf inst with
  | none => simp [hd] at hi
  | some d =>
    simp [hd] at hi
    subst hi
    exact ⟨rfl, rfl⟩

theorem counterSamples_valType (g : Globals) (res : FetchResult) :
    ∀ x ∈ counterSamples g res, x.valType = ValueType.CounterValue ∧ x.labelValues = [] := by
  unfold counterSamples
  split
  · exact loopSamples_valType _ _ _
  · simp

theorem serviceTimeSamples_valType (g : Globals) (res : FetchResult) :
    ∀ x ∈ serviceTimeSamples g res, x.valType = ValueType.GaugeValue ∧ x.labelValues = [] := by
  unfold serviceTimeSamples
  split
  · exact loopSamples_valType _ _ _
  · simp

theorem infoSamples_valType (rules : Validation) (g : Globals) (res : FetchResult) :
    ∀ x ∈ infoSamples rules g res,
      x.valType = ValueType.GaugeValue ∧ x.labelValues = [] := by
  unfold infoSamples
  split
  · exact loopSamples_valType _ _ _
  · simp

theorem up_Collect_valType (v : GaugeVec) (ord : RangeOrder (Sigma fun _ : String => float64)) :
    ∀ x ∈ v.Collect ord [], x.valType = ValueType.GaugeValue := by
  intro x hx
  rw [GaugeVec_Collect_eq] at hx
  simp only [List.nil_append, List.mem_map] at hx
  obtain ⟨kv, _, hkv⟩ := hx
  subst hkv
  rfl

theorem known_image (m : descMap) (t : ValueType) (insts : List Record) :
    List.Forall₂ (IsImage m t) (insts.filter fun inst => decide (inst.Key ∈ m))
      (insts.filterMap fun inst => (knownDescriptor m inst).map (sampleUnder t inst)) := by
  induction insts with
  | nil => simp
  | cons inst rest ih =>
    cases h : m.lookup inst.Key with
    | none =>
      have hm : inst.Key ∉ m := AList.lookup_eq_none.mp h
      simpa [List.filter_cons, List.filterMap_cons, knownDescriptor, h, hm] using ih
    | some d =>
      have hm : inst.Key ∈ m := AList.lookup_isSome.mp (by simp [h])
      simp only [List.filter_cons, List.filterMap_cons, knownDescriptor, h, hm, decide_True,
        if_true, Option.map_some']
      exact List.Forall₂.cons ⟨h, rfl, rfl, rfl⟩ ih

theorem infoDesc_isInfoDesc (rules : Validation) (inst : Record) (hl : LabelsOk rules inst) :
    IsInfoDesc inst (infoDesc rules inst) := by
  refine ⟨rfl, rfl, rfl, ?_, fun k => ?_⟩
  · simp [infoDesc, hl]
  · simp [infoDesc, lookup_foldl_insert]

theorem info_image (rules : Validation) (infos : descMap) (insts : List Record)
    (hok : ∀ inst ∈ insts, inst.Key ∉ infos → inst.Key = "squid_info" → LabelsOk rules inst) :
    List.Forall₂ (IsInfoImage infos)
      (insts.filter fun inst => decide (inst.Key ∈ infos ∨ inst.Key = "squid_info"))
      (insts.filterMap fun inst =>
        (infoDescriptor rules infos inst).map (sampleUnder ValueType.GaugeValue inst)) := by
  induction insts with
  | nil => simp
  | cons inst rest ih =>
    have ih2 := ih fun i hi => hok i (List.mem_cons_of_mem _ hi)
    cases h : infos.lookup inst.Key with
    | some d =>
      have hm : inst.Key ∈ infos := AList.lookup_isSome.mp (by simp [h])
      rw [List.filter_cons, List.filterMap_cons]
      simp only [infoDescriptor, h, hm, true_or, decide_True, if_true, Option.map_some']
      exact List.Forall₂.cons ⟨fun _ => ⟨h, rfl, rfl, rfl⟩, fun hn => absurd hm hn⟩ ih2
    | none =>
      have hm : inst.Key ∉ infos := AList.lookup_eq_none.mp h
      by_cases hk : inst.Key = "squid_info"
      · have hl := hok inst (List.mem_cons_self _ _) hm hk
        rw [List.filter_cons, List.filterMap_cons]
        simp only [infoDescriptor, h, hk, or_true, decide_True, if_true, Option.map_some']
        exact List.Forall₂.cons
          ⟨fun hin => absurd hin (by simpa [hk] using hm),
           fun _ => ⟨infoDesc_isInfoDesc rules inst hl, rfl, rfl, rfl⟩⟩ ih2
      · rw [List.filter_cons, List.filterMap_cons]
        simp only [infoDescriptor, h, hm, hk, or_self, decide_False, Bool.false_eq_true,
          if_false, Option.map_none']
        exact ih2

theorem loopSamples_filter (descOf : Record → Option Desc) (t : ValueType)
    (p : Record → Bool) (hp : ∀ inst, p inst = (descOf inst).isSome) (insts : List Record) :
    loopSamples descOf t (insts.filter p) = loopSamples descOf t insts := by
  induction insts with
  | nil => rfl
  | cons inst rest ih =>
    unfold loopSamples at ih ⊢
    cases hd : descOf inst with
    | none =>
      have hpi : p inst = false := by rw [hp, hd]; rfl
      simp [List.filter_cons, hpi, List.takeWhile_cons, hd, List.filterMap_cons, ih]
    | some d =>
      have hpi : p inst = true := by rw [hp, hd]; rfl
      simp only [List.filter_cons, hpi, if_true, List.takeWhile_cons, hd, Option.some_bind]
      cases hdp : descPanic d with
      | some e => simp
      | none => simp [List.filterMap_cons, hd, ih]

theorem loopPanic_filter (descOf : Record → Option Desc)
    (p : Record → Bool) (hp : ∀ inst, p inst = (descOf inst).isSome) (insts : List Record) :
    loopPanic descOf (insts.filter p) = loopPanic descOf insts := by
  induction insts with
  | nil => rfl
  | cons inst rest ih =>
    unfold loopPanic at ih ⊢
    cases hd : descOf inst with
    | none =>
      have hpi : p inst = false := by rw [hp, hd]; rfl
      simp [List.filter_cons, hpi, List.findSome?_cons, hd, ih]
    | some d =>
      have hpi : p inst = true := by rw [hp, hd]; rfl
      simp only [List.filter_cons, hpi, if_true, List.findSome?_cons, hd, Option.some_bind]
      cases hdp : descPanic d with
      | some e => rfl
      | none => simpa using ih

theorem known_isSome (m : descMap) (inst : Record) :
    decide (inst.Key ∈ m) = (knownDescriptor m inst).isSome := by
  unfold knownDescriptor
  cases h : m.lookup inst.Key with
  | none =>
    have hm : inst.Key ∉ m := AList.lookup_eq_none.mp h
    simp [hm]
  | some d =>
    have hm : inst.Key ∈ m := AList.lookup_isSome.mp (by simp [h])
    simp [hm]

theorem info_isSome (rules : Validation) (infos : descMap) (inst : Record) :
    decide (inst.Key ∈ infos ∨ inst.Key = "squid_info") =
      (infoDescriptor rules infos inst).isSome := by
  unfold infoDescriptor
  cases h : infos.lookup inst.Key with
  | none =>
    have hm : inst.Key ∉ infos := AList.lookup_eq_none.mp h
    by_cases hk : inst.Key = "squid_info" <;> simp [hm, hk]
  | some d =>
    have hm : inst.Key ∈ infos := AList.lookup_isSome.mp (by simp [h])
    simp [hm]

theorem loopSamples_append_of_ok (descOf : Record → Option Desc) (t : ValueType)
    (l1 l2 : List Record) (h : LoopOk descOf l1) :
    loopSamples descOf t (l1 ++ l2) =
      (l1.filterMap fun inst => (descOf inst).map (sampleUnder t inst)) ++
        loopSamples descOf t l2 := by
  induction l1 with
  | nil => simp
  | cons inst rest ih =>
    have hrest : LoopOk descOf rest := fun i hi => h i (List.mem_cons_of_mem _ hi)
    have hi : (descOf inst).bind descPanic = none :=
      (bind_descPanic_eq_none_iff _).mpr (h inst (List.mem_cons_self _ _))
    have ih2 := ih hrest
    unfold loopSamples at ih2 ⊢
    rw [List.cons_append, List.takeWhile_cons]
    simp only [hi, Option.isNone_none, if_true, List.filterMap_cons]
    cases hd : descOf inst with
    | none => simpa using ih2
    | some d => simpa using ih2

theorem loopSamples_cons_of_ok (descOf : Record → Option Desc) (t : ValueType)
    (inst : Record) (rest : List Record) (d : Desc) (hd : descOf inst = some d)
    (hu : Usable d) :
    loopSamples descOf t (inst :: rest) = sampleUnder t inst d :: loopSamples descOf t rest := by
  have hp : descPanic d = none := (descPanic_eq_none_iff d).mpr hu
  unfold loopSamples
  simp [List.takeWhile_cons, hd, hp, List.filterMap_cons]

theorem Collect_counter_typed {σ : Type} (rules : Validation) (g : Globals)
    (cl : SquidClient σ) (ord : RangeOrder (Sigma fun _ : String => float64))
    (e : Exporter σ) :
    ((Collect rules g cl ord e).c.filter fun x => decide (x.valType = ValueType.CounterValue)) =
      counterSamples g (fetchedCounters cl e) := by
  rw [Collect_c, List.filter_append]
  have h1 : (counterSamples g (fetchedCounters cl e)).filter
      (fun x => decide (x.valType = ValueType.CounterValue)) =
      counterSamples g (fetchedCounters cl e) :=
    List.filter_eq_self.mpr fun x hx => by
      simp [(counterSamples_valType g _ x hx).1]
  have h2 : ∀ l : List Metric, (∀ x ∈ l, x.valType = ValueType.GaugeValue) →
      l.filter (fun x => decide (x.valType = ValueType.CounterValue)) = [] := by
    intro l hl
    exact List.filter_eq_nil_iff.mpr fun x hx => by simp [hl x hx]
  rw [h1, h2, List.append_nil]
  intro x hx
  split at hx
  · simp at hx
  · rw [List.mem_append] at hx
    rcases hx with hx | hx
    · exact (serviceTimeSamples_valType g _ x hx).1
    · split at hx
      · simp at hx
      · rw [List.mem_append] at hx
        rcases hx with hx | hx
        · exact (infoSamples_valType rules g _ x hx).1
        · split at hx
          · simp at hx
          · exact up_Collect_valType _ ord x hx

theorem counterSamples_of_ok (g : Globals) (res : FetchResult) (hok : res.2 = none)
    (hdesc : CountersOk g res) :
    counterSamples g res =
      res.1.filterMap fun inst =>
        (knownDescriptor g.counters inst).map (sampleUnder ValueType.CounterValue inst) := by
  unfold counterSamples
  rw [if_pos hok]
  exact loopSamples_of_ok _ _ _ (hdesc hok)

theorem serviceTimeSamples_of_ok (g : Globals) (res : FetchResult)
    (hon : g.ExtractServiceTimes = true) (hok : res.2 = none) (hdesc : ServiceTimesOk g res) :
    serviceTimeSamples g res =
      res.1.filterMap fun inst =>
        (knownDescriptor g.serviceTimes inst).map (sampleUnder ValueType.GaugeValue inst) := by
  unfold serviceTimeSamples
  rw [if_pos ⟨hon, hok⟩]
  exact loopSamples_of_ok _ _ _ (hdesc hon hok)

theorem infoSamples_of_ok (rules : Validation) (g : Globals) (res : FetchResult)
    (hok : res.2 = none) (hdesc : InfosOk rules g res) :
    infoSamples rules g res =
      res.1.filterMap fun inst =>
        (infoDescriptor rules g.infos inst).map (sampleUnder ValueType.GaugeValue inst) := by
  unfold infoSamples
  rw [if_pos hok]
  exact loopSamples_of_ok _ _ _ ((infoLoopOk_iff rules g.infos res.1).mpr (hdesc hok))

theorem infoSamples_split (rules : Validation) (g : Globals) (before after : List Record)
    (inst : Record) (d : Desc)
    (hb : InfosOk rules g (before, none))
    (hd : infoDescriptor rules g.infos inst = some d) (hu : Usable d) :
    infoSamples rules g (before ++ inst :: after, none) =
      infoSamples rules g (before, none) ++
        sampleUnder ValueType.GaugeValue inst d :: infoSamples rules g (after, none) := by
  have hbl : LoopOk (infoDescriptor rules g.infos) before :=
    (infoLoopOk_iff rules g.infos before).mpr (hb rfl)
  simp only [infoSamples, if_true]
  rw [loopSamples_append_of_ok _ _ _ _ hbl, loopSamples_cons_of_ok _ _ _ _ d hd hu,
    loopSamples_of_ok _ _ _ hbl]

theorem infoPanic_split (rules : Validation) (g : Globals) (before after : List Record)
    (inst : Record) (d : Desc)
    (hb : InfosOk rules g (before, none))
    (hd : infoDescriptor rules g.infos inst = some d) (hu : Usable d) :
    infoPanic rules g (before ++ inst :: after, none) = infoPanic rules g (after, none) := by
  have hbp : infoPanic rules g (before, none) = none :=
    (infoPanic_eq_none_iff rules g _).mpr hb
  have hdp : descPanic d = none := (descPanic_eq_none_iff d).mpr hu
  simp only [infoPanic, if_true, loopPanic] at hbp ⊢
  rw [List.findSome?_append, hbp]
  simp [List.findSome?_cons, hd, hdp]

theorem Collect_c_at_info {σ : Type} (rules : Validation) (g : Globals) (cl : SquidClient σ)
    (ord : RangeOrder (Sigma fun _ : String => float64)) (e : Exporter σ)
    (before after : List Record) (inst : Record) (d : Desc)
    (hok : fetchedInfos g cl e = (before ++ inst :: after, none))
    (hc : CountersOk g (fetchedCounters cl e))
    (hs : ServiceTimesOk g (fetchedServiceTimes cl e))
    (hb : InfosOk rules g (before, none))
    (hd : infoDescriptor rules g.infos inst = some d) (hu : Usable d) :
    (Collect rules g cl ord e).c =
      counterSamples g (fetchedCounters cl e) ++
        (serviceTimeSamples g (fetchedServiceTimes cl e) ++
          (infoSamples rules g (before, none) ++
            sampleUnder ValueType.GaugeValue inst d ::
              (infoSamples rules g (after, none) ++
                (if (infoPanic rules g (after, none)).isSome then []
                 else (Collect rules g cl ord e).exporter.up.Collect ord [])))) := by
  rw [Collect_up, Collect_c, (counterPanic_eq_none_iff g _).mpr hc,
    (serviceTimePanic_eq_none_iff g _).mpr hs, hok,
    infoSamples_split rules g before after inst d hb hd hu,
    infoPanic_split rules g before after inst d hb hd hu]
  simp

/-! ## The claims -/

/-- C1, as the code has it: when `GetCounters` succeeds and every catalogued
descriptor a returned record hits is usable (valid, without variable labels),
the counter-typed samples `Collect` sends are, in record order, one per
returned record whose key is in the counters map, each under the descriptor
the map holds for the key and with the value of the record unchanged; so there
are as many of them as records with a catalogued key. -/
theorem C1_counter_samples {σ : Type} (rules : Validation) (g : Globals) (cl : SquidClient σ)
    (ord : RangeOrder (Sigma fun _ : String => float64)) (e : Exporter σ)
    (hok : (fetchedCounters cl e).2 = none)
    (hdesc : CountersOk g (fetchedCounters cl e)) :
    List.Forall₂ (IsImage g.counters ValueType.CounterValue)
      ((fetchedCounters cl e).1.filter fun inst => decide (inst.Key ∈ g.counters))
      ((Collect rules g cl ord e).c.filter
        fun x => decide (x.valType = ValueType.CounterValue)) ∧
    ((Collect rules g cl ord e).c.filter
        fun x => decide (x.valType = ValueType.CounterValue)).length =
      ((fetchedCounters cl e).1.filter fun inst => decide (inst.Key ∈ g.counters)).length := by
  rw [Collect_counter_typed, counterSamples_of_ok g _ hok hdesc]
  have himg := known_image g.counters ValueType.CounterValue (fetchedCounters cl e).1
  exact ⟨himg, himg.length_eq.symm⟩

/-- C1 at the end-to-end scenario: the record `client_http.requests` with
value 1024 yields the single counter sample 1024 under
`squid_client_http_requests_total`. -/
theorem C1_counter_samples_witness :
    (fetchedCounters exampleClient exampleExporter).2 = none ∧
    CountersOk exampleGlobals (fetchedCounters exampleClient exampleExporter) ∧
    (List.Forall₂ (IsImage exampleGlobals.counters ValueType.CounterValue)
      ((fetchedCounters exampleClient exampleExporter).1.filter
        fun inst => decide (inst.Key ∈ exampleGlobals.counters))
      ((Collect legacyValidation exampleGlobals exampleClient (RangeOrder.stored _)
          exampleExporter).c.filter
        fun x => decide (x.valType = ValueType.CounterValue)) ∧
     ((Collect legacyValidation exampleGlobals exampleClient (RangeOrder.stored _)
          exampleExporter).c.filter
        fun x => decide (x.valType = ValueType.CounterValue)).length =
      ((fetchedCounters exampleClient exampleExporter).1.filter
        fun inst => decide (inst.Key ∈ exampleGlobals.counters)).length) ∧
    ((Collect legacyValidation exampleGlobals exampleClient (RangeOrder.stored _)
          exampleExporter).c.filter
        fun x => decide (x.valType = ValueType.CounterValue)) =
      [{ desc := requestsDesc, valType := ValueType.CounterValue, val := float64.v1024,
         labelValues := [] }] :=
  ⟨by decide, by decide,
   C1_counter_samples legacyValidation exampleGlobals exampleClient (RangeOrder.stored _)
     exampleExporter (by decide) (by decide),
   by decide⟩

/-- C1 as stated fails for a counters map whose descriptor declares a
variable label: `GetCounters` succeeds and one returned record has a
catalogued key, yet `MustNewConstMetric` panics at line 91 and `Collect` sends
no counter sample. -/
theorem C1_counterexample :
    (fetchedCounters exampleClient exampleExporter).2 = none ∧
    ((fetchedCounters exampleClient exampleExporter).1.filter
      fun inst => decide (inst.Key ∈ labelledGlobals.counters)) = [requestsRecord] ∧
    labelledGlobals.counters.lookup requestsRecord.Key = some labelledDesc ∧
    labelledDesc.variableLabels = ["host"] ∧
    ((Collect legacyValidation labelledGlobals exampleClient (RangeOrder.stored _)
        exampleExporter).c.filter
      fun x => decide (x.valType = ValueType.CounterValue)) = [] ∧
    (Collect legacyValidation labelledGlobals exampleClient (RangeOrder.stored _)
        exampleExporter).panic = some (LibError.inconsistentCardinality 1 0) := by
  decide

/-- C2, as the code has it: for an exporter whose `up` vector holds no
foreign host, the gauge of the host is set to 1 exactly when `GetCounters`
returned no error and to 0 exactly when it returned one, in every run.
When no `MustNewConstMetric` call panics, `Collect` returns and sends the
samples of the three families followed by exactly one availability sample,
labelled with the hostname of the exporter and carrying that value; it is the
only sample with a label value, and it is the same for every client with the
same `GetCounters` whose run does not panic either. The exporter `New`
returns satisfies the condition on `up` (lemma `New_own`) and `Collect` keeps
it. -/
theorem C2_availability {σ : Type} (rules : Validation) (g : Globals) (cl : SquidClient σ)
    (ord : RangeOrder (Sigma fun _ : String => float64)) (e : Exporter σ)
    (hown : OwnHostOnly e) :
    (Collect rules g cl ord e).exporter.up.children.entries =
      [⟨e.hostname, upValue (fetchedCounters cl e)⟩] ∧
    (upValue (fetchedCounters cl e) = float64.one ↔ (fetchedCounters cl e).2 = none) ∧
    (upValue (fetchedCounters cl e) = float64.zero ↔ (fetchedCounters cl e).2 ≠ none) ∧
    OwnHostOnly (Collect rules g cl ord e).exporter ∧
    (NoPanic rules g cl e →
      (Collect rules g cl ord e).panic = none ∧
      (Collect rules g cl ord e).c =
        (counterSamples g (fetchedCounters cl e) ++
          serviceTimeSamples g (fetchedServiceTimes cl e) ++
          infoSamples rules g (fetchedInfos g cl e)) ++
          [upSample e (upValue (fetchedCounters cl e))] ∧
      (Collect rules g cl ord e).exporter.up.Collect ord [] =
        [upSample e (upValue (fetchedCounters cl e))] ∧
      ((Collect rules g cl ord e).c.filter fun x => decide (x.labelValues ≠ [])) =
        [upSample e (upValue (fetchedCounters cl e))] ∧
      (∀ cl2 : SquidClient σ, cl2.GetCounters = cl.GetCounters → NoPanic rules g cl2 e →
        (Collect rules g cl2 ord e).c.getLast? =
          some (upSample e (upValue (fetchedCounters cl e))))) := by
  have hne : float64.one ≠ float64.zero := by decide
  refine ⟨?_, ?_, ?_, Collect_own rules g cl ord e hown, ?_⟩
  · rw [Collect_up]
    exact WithSet_own_entries e hown _
  · unfold upValue
    split
    · simp [*]
    · constructor
      · intro h; exact absurd h.symm hne
      · intro h; contradiction
  · unfold upValue
    split
    · constructor
      · intro h; exact absurd h hne
      · intro h; contradiction
    · simp [*]
  · intro hnp
    refine ⟨(Collect_panic_eq_none_iff rules g cl ord e).mpr hnp, ?_, ?_, ?_, ?_⟩
    · rw [Collect_c_own rules g cl ord e hown hnp]
      simp
    · rw [Collect_up, up_Collect_own e hown]
      simp
    · rw [Collect_c_own rules g cl ord e hown hnp, List.filter_append, List.filter_append,
        List.filter_append]
      have h1 : (counterSamples g (fetchedCounters cl e)).filter
          (fun x => decide (x.labelValues ≠ [])) = [] :=
        List.filter_eq_nil_iff.mpr fun x hx => by
          simp [(counterSamples_valType g _ x hx).2]
      have h2 : (serviceTimeSamples g (fetchedServiceTimes cl e)).filter
          (fun x => decide (x.labelValues ≠ [])) = [] :=
        List.filter_eq_nil_iff.mpr fun x hx => by
          simp [(serviceTimeSamples_valType g _ x hx).2]
      have h3 : (infoSamples rules g (fetchedInfos g cl e)).filter
          (fun x => decide (x.labelValues ≠ [])) = [] :=
        List.filter_eq_nil_iff.mpr fun x hx => by
          simp [(infoSamples_valType rules g _ x hx).2]
      rw [h1, h2, h3]
      simp [upSample]
    · intro cl2 h2 hnp2
      have hf : fetchedCounters cl2 e = fetchedCounters cl e := by
        unfold fetchedCounters; rw [h2]
      rw [Collect_c_own rules g cl2 ord e hown hnp2, hf]
      simp [← List.append_assoc]

/-- C2 at the exporter `New` builds, with a failing counters fetch: the run
does not panic and ends with availability 0. -/
theorem C2_availability_witness :
    OwnHostOnly exampleExporter ∧
    NoPanic legacyValidation timesGlobals countersDownClient exampleExporter ∧
    (Collect legacyValidation timesGlobals countersDownClient (RangeOrder.stored _)
        exampleExporter).c.getLast? =
      some (upSample exampleExporter float64.zero) :=
  ⟨by decide, by decide,
   ((C2_availability legacyValidation timesGlobals countersDownClient (RangeOrder.stored _)
     exampleExporter (by decide)).2.2.2.2 (by decide)).2.2.2.2 countersDownClient rfl
     (by decide)⟩

/-- C2 as stated fails when the infos loop panics: all three fetches succeed,
a `squid_info` record outside the info map has the reserved label key
`__reserved`, `MustNewConstMetric` panics at line 129 and `Collect` sends two
samples and no availability sample. -/
theorem C2_counterexample :
    OwnHostOnly exampleExporter ∧
    (fetchedCounters reservedClient exampleExporter).2 = none ∧
    (fetchedInfos exampleGlobals reservedClient exampleExporter) =
      ([clientsRecord, reservedRecord], none) ∧
    (Collect legacyValidation exampleGlobals reservedClient (RangeOrder.stored _)
        exampleExporter).c =
      [{ desc := requestsDesc, valType := ValueType.CounterValue, val := float64.v1024,
         labelValues := [] },
       { desc := clientsDesc, valType := ValueType.GaugeValue, val := float64.one,
         labelValues := [] }] ∧
    ((Collect legacyValidation exampleGlobals reservedClient (RangeOrder.stored _)
        exampleExporter).c.filter fun x => decide (x.desc = exampleExporter.up.desc)) = [] ∧
    (Collect legacyValidation exampleGlobals reservedClient (RangeOrder.stored _)
        exampleExporter).panic = some LibError.invalidLabelName := by
  decide

/-- C9, as the code has it: `Collect` calls `GetCounters`, then
`GetServiceTimes` if service times are extracted, then `GetInfos`, none of
them twice, and sends the counter samples, then the service-time samples,
then the info samples, then the availability sample. A run in which no
`MustNewConstMetric` call panics makes all these calls and sends all these
samples, the availability sample last, whatever the fetches return; a run that
panics stops there, so its calls and its samples are an initial part of
these sequences. -/
theorem C9_order {σ : Type} (rules : Validation) (g : Globals) (cl : SquidClient σ)
    (ord : RangeOrder (Sigma fun _ : String => float64)) (e : Exporter σ)
    (hown : OwnHostOnly e) :
    (NoPanic rules g cl e →
      (Collect rules g cl ord e).panic = none ∧
      (Collect rules g cl ord e).c =
        counterSamples g (fetchedCounters cl e) ++
          (serviceTimeSamples g (fetchedServiceTimes cl e) ++
            (infoSamples rules g (fetchedInfos g cl e) ++
              [upSample e (upValue (fetchedCounters cl e))])) ∧
      (Collect rules g cl ord e).c.getLast? =
        some (upSample e (upValue (fetchedCounters cl e))) ∧
      (Collect rules g cl ord e).calls =
        Call.GetCounters ::
          ((if g.ExtractServiceTimes then [Call.GetServiceTimes] else []) ++
            [Call.GetInfos])) ∧
    (g.ExtractServiceTimes = false → serviceTimeSamples g (fetchedServiceTimes cl e) = []) ∧
    (∃ rest,
      counterSamples g (fetchedCounters cl e) ++
        (serviceTimeSamples g (fetchedServiceTimes cl e) ++
          (infoSamples rules g (fetchedInfos g cl e) ++
            [upSample e (upValue (fetchedCounters cl e))])) =
        (Collect rules g cl ord e).c ++ rest) ∧
    (∃ rest,
      Call.GetCounters ::
          ((if g.ExtractServiceTimes then [Call.GetServiceTimes] else []) ++
            [Call.GetInfos]) =
        (Collect rules g cl ord e).calls ++ rest) ∧
    (Collect rules g cl ord e).calls.Nodup := by
  refine ⟨?_, ?_, ?_, ?_, ?_⟩
  · intro hnp
    refine ⟨(Collect_panic_eq_none_iff rules g cl ord e).mpr hnp,
      Collect_c_own rules g cl ord e hown hnp, ?_,
      Collect_calls_of_noPanic rules g cl ord e hnp.1 hnp.2.1⟩
    rw [Collect_c_own rules g cl ord e hown hnp]
    simp [← List.append_assoc]
  · intro hoff
    simp [serviceTimeSamples, hoff]
  · rw [Collect_c, up_Collect_own e hown]
    cases counterPanic g (fetchedCounters cl e) <;>
      cases serviceTimePanic g (fetchedServiceTimes cl e) <;>
      cases infoPanic rules g (fetchedInfos g cl e) <;> simp
  · rw [Collect_calls]
    cases counterPanic g (fetchedCounters cl e) <;>
      cases serviceTimePanic g (fetchedServiceTimes cl e) <;>
      cases g.ExtractServiceTimes <;> simp
  · rw [Collect_calls]
    cases counterPanic g (fetchedCounters cl e) <;>
      cases serviceTimePanic g (fetchedServiceTimes cl e) <;>
      cases g.ExtractServiceTimes <;> simp

/-- C9 at the example exporter with service times extracted: no panic, three
calls in order and the availability sample last. -/
theorem C9_order_witness :
    OwnHostOnly exampleExporter ∧
    NoPanic legacyValidation timesGlobals exampleClient exampleExporter ∧
    (Collect legacyValidation timesGlobals exampleClient (RangeOrder.stored _)
        exampleExporter).calls =
      [Call.GetCounters, Call.GetServiceTimes, Call.GetInfos] ∧
    (Collect legacyValidation timesGlobals exampleClient (RangeOrder.stored _)
        exampleExporter).c.getLast? =
      some (upSample exampleExporter float64.one) :=
  ⟨by decide, by decide,
   ((C9_order legacyValidation timesGlobals exampleClient (RangeOrder.stored _) exampleExporter
     (by decide)).1 (by decide)).2.2.2,
   ((C9_order legacyValidation timesGlobals exampleClient (RangeOrder.stored _) exampleExporter
     (by decide)).1 (by decide)).2.2.1⟩

/-- C9 as stated fails when a loop panics: with all fetches successful and a
`squid_info` record with a reserved label key, the last sample `Collect` sends
is an info sample, not the availability sample; and with a counters
descriptor that declares a variable label the only call made is
`GetCounters`. -/
theorem C9_counterexample :
    OwnHostOnly exampleExporter ∧
    (Collect legacyValidation exampleGlobals reservedClient (RangeOrder.stored _)
        exampleExporter).c.getLast? =
      some { desc := clientsDesc, valType := ValueType.GaugeValue, val := float64.one,
             labelValues := [] } ∧
    (Collect legacyValidation exampleGlobals reservedClient (RangeOrder.stored _)
        exampleExporter).c.getLast? ≠ some (upSample exampleExporter float64.one) ∧
    (Collect legacyValidation labelledGlobals exampleClient (RangeOrder.stored _)
        exampleExporter).calls = [Call.GetCounters] := by
  decide

/-- C10: `Describe` sends the availability descriptor first, then the
descriptors of the counters map, then those of the service-time map if and
only if service times are extracted, then those of the info map, every map
entry exactly once (each block is a permutation of the values of its map); it
sends 1 + |counters| + (|serviceTimes| if extracted) + |infos| descriptors and
leaves the package variables as they were. -/
theorem C10_describe {σ : Type} (g : Globals)
    (oc os oi : RangeOrder (Sigma fun _ : String => Desc)) (e : Exporter σ) :
    (∃ cs ss is : List Desc,
      (Describe g oc os oi e).ch = e.up.desc :: (cs ++ (ss ++ is)) ∧
      cs.Perm (g.counters.entries.map fun kv => kv.2) ∧
      ss.Perm (if g.ExtractServiceTimes then g.serviceTimes.entries.map fun kv => kv.2 else []) ∧
      is.Perm (g.infos.entries.map fun kv => kv.2)) ∧
    (Describe g oc os oi e).ch.length =
      1 + g.counters.entries.length +
        (if g.ExtractServiceTimes then g.serviceTimes.entries.length else 0) +
        g.infos.entries.length ∧
    (Describe g oc os oi e).globals = g := by
  have hch : (Describe g oc os oi e).ch =
      e.up.desc :: ((oc.visit g.counters.entries).map (fun kv => kv.2) ++
        ((if g.ExtractServiceTimes then (os.visit g.serviceTimes.entries).map (fun kv => kv.2)
          else []) ++ (oi.visit g.infos.entries).map (fun kv => kv.2))) := by
    unfold Describe GaugeVec.Describe
    dsimp only
    cases hf : g.ExtractServiceTimes <;> simp [rangeSend_eq]
  refine ⟨⟨_, _, _, hch, (oc.perm _).map _, ?_, (oi.perm _).map _⟩, ?_, rfl⟩
  · cases hf : g.ExtractServiceTimes
    · simp
    · simpa using (os.perm g.serviceTimes.entries).map _
  · rw [hch]
    have h1 := (oc.perm g.counters.entries).length_eq
    have h2 := (os.perm g.serviceTimes.entries).length_eq
    have h3 := (oi.perm g.infos.entries).length_eq
    cases hf : g.ExtractServiceTimes <;> simp [h1, h2, h3] <;> omega

/-- C5, as the code has it: with `ExtractServiceTimes` false and any
service-time map, also a non-empty one that `New` leaves in place, `Describe`
sends the availability descriptor and the descriptors of the counters and
info maps only, the same as for any other service-time map; `Collect` never
calls `GetServiceTimes` and sends no service-time sample: its samples, calls
and outcome are the same for any other service-time map. Its calls are
`GetCounters` followed by `GetInfos` when the counters loop does not panic,
and `GetCounters` alone when it does. -/
theorem C5_service_times_disabled {σ : Type} (rules : Validation) (deps : Deps σ)
    (cfg : CollectorConfig) (g : Globals) (cl : SquidClient σ)
    (oc os oi : RangeOrder (Sigma fun _ : String => Desc))
    (ord : RangeOrder (Sigma fun _ : String => float64)) (e : Exporter σ)
    (hoff : g.ExtractServiceTimes = false) :
    (Describe g oc os oi e).ch =
      e.up.desc :: ((oc.visit g.counters.entries).map (fun kv => kv.2) ++
        (oi.visit g.infos.entries).map (fun kv => kv.2)) ∧
    (∀ m : descMap,
      (Describe { g with serviceTimes := m } oc os oi e).ch = (Describe g oc os oi e).ch) ∧
    Call.GetServiceTimes ∉ (Collect rules g cl ord e).calls ∧
    (CountersOk g (fetchedCounters cl e) →
      (Collect rules g cl ord e).calls = [Call.GetCounters, Call.GetInfos]) ∧
    (¬ CountersOk g (fetchedCounters cl e) →
      (Collect rules g cl ord e).calls = [Call.GetCounters]) ∧
    (Collect rules g cl ord e).c =
      counterSamples g (fetchedCounters cl e) ++
        (if (counterPanic g (fetchedCounters cl e)).isSome then []
         else infoSamples rules g (fetchedInfos g cl e) ++
           (if (infoPanic rules g (fetchedInfos g cl e)).isSome then []
            else (Collect rules g cl ord e).exporter.up.Collect ord [])) ∧
    (NoPanic rules g cl e →
      (Collect rules g cl ord e).c =
        counterSamples g (fetchedCounters cl e) ++
          (infoSamples rules g (fetchedInfos g cl e) ++
            (Collect rules g cl ord e).exporter.up.Collect ord [])) ∧
    (∀ m : descMap,
      (Collect rules { g with serviceTimes := m } cl ord e).c = (Collect rules g cl ord e).c ∧
      (Collect rules { g with serviceTimes := m } cl ord e).calls =
        (Collect rules g cl ord e).calls ∧
      (Collect rules { g with serviceTimes := m } cl ord e).panic =
        (Collect rules g cl ord e).panic) ∧
    (New rules deps g cfg).1.serviceTimes = g.serviceTimes ∧
    (New rules deps g cfg).1.ExtractServiceTimes = false := by
  have hd : ∀ g2 : Globals, g2.ExtractServiceTimes = false →
      (Describe g2 oc os oi e).ch =
        e.up.desc :: ((oc.visit g2.counters.entries).map (fun kv => kv.2) ++
          (oi.visit g2.infos.entries).map (fun kv => kv.2)) := by
    intro g2 h2
    unfold Describe GaugeVec.Describe
    dsimp only
    simp [rangeSend_eq, h2]
  have hss : ∀ g2 : Globals, g2.ExtractServiceTimes = false → ∀ res,
      serviceTimeSamples g2 res = [] ∧ serviceTimePanic g2 res = none := by
    intro g2 h2 res
    simp [serviceTimeSamples, serviceTimePanic, h2]
  have hc : ∀ g2 : Globals, g2.ExtractServiceTimes = false →
      (Collect rules g2 cl ord e).c =
        counterSamples g2 (fetchedCounters cl e) ++
          (if (counterPanic g2 (fetchedCounters cl e)).isSome then []
           else infoSamples rules g2 (fetchedInfos g2 cl e) ++
             (if (infoPanic rules g2 (fetchedInfos g2 cl e)).isSome then []
              else (e.up.WithSet e.hostname (upValue (fetchedCounters cl e))).Collect
                ord [])) := by
    intro g2 h2
    rw [Collect_c, (hss g2 h2 _).1, (hss g2 h2 _).2]
    simp
  have hcalls : ∀ g2 : Globals, g2.ExtractServiceTimes = false →
      (Collect rules g2 cl ord e).calls =
        Call.GetCounters ::
          (if (counterPanic g2 (fetchedCounters cl e)).isSome then []
           else [Call.GetInfos]) := by
    intro g2 h2
    rw [Collect_calls, (hss g2 h2 _).2]
    simp [h2]
  have hpanic : ∀ g2 : Globals, g2.ExtractServiceTimes = false →
      (Collect rules g2 cl ord e).panic =
        (counterPanic g2 (fetchedCounters cl e)).or
          (infoPanic rules g2 (fetchedInfos g2 cl e)) := by
    intro g2 h2
    rw [Collect_panic, (hss g2 h2 _).2]
    simp
  refine ⟨hd g hoff, ?_, ?_, ?_, ?_, ?_, ?_, ?_, ?_, ?_⟩
  · intro m
    rw [hd g hoff, hd { g with serviceTimes := m } hoff]
  · rw [hcalls g hoff]
    cases counterPanic g (fetchedCounters cl e) <;> simp
  · intro hok
    rw [hcalls g hoff, (counterPanic_eq_none_iff g _).mpr hok]
    simp
  · intro hbad
    rw [hcalls g hoff]
    cases hp : counterPanic g (fetchedCounters cl e) with
    | none => exact absurd ((counterPanic_eq_none_iff g _).mp hp) hbad
    | some p => simp
  · rw [Collect_up]
    exact hc g hoff
  · intro hnp
    rw [Collect_up, hc g hoff, (counterPanic_eq_none_iff g _).mpr hnp.1,
      (infoPanic_eq_none_iff rules g _).mpr hnp.2.2]
    simp
  · intro m
    refine ⟨?_, ?_, ?_⟩
    · rw [hc g hoff, hc { g with serviceTimes := m } hoff]
      simp [counterSamples, counterPanic, infoSamples, infoPanic, fetchedInfos,
        clientBeforeInfos, hoff]
    · rw [hcalls g hoff, hcalls { g with serviceTimes := m } hoff]
      simp [counterPanic]
    · rw [hpanic g hoff, hpanic { g with serviceTimes := m } hoff]
      simp [counterPanic, infoPanic, fetchedInfos, clientBeforeInfos, hoff]
  · simp [New, hoff]
  · simp [New, hoff]

/-- C5 at the example package state, whose service-time map is not empty:
two descriptors besides the availability one, two calls. -/
theorem C5_service_times_disabled_witness :
    exampleGlobals.ExtractServiceTimes = false ∧
    exampleGlobals.serviceTimes.entries.length = 1 ∧
    CountersOk exampleGlobals (fetchedCounters exampleClient exampleExporter) ∧
    (Describe exampleGlobals (RangeOrder.stored _) (RangeOrder.stored _) (RangeOrder.stored _)
      exampleExporter).ch = [exampleExporter.up.desc, requestsDesc, clientsDesc] ∧
    (Collect legacyValidation exampleGlobals exampleClient (RangeOrder.stored _)
      exampleExporter).calls = [Call.GetCounters, Call.GetInfos] :=
  ⟨by decide, by decide, by decide,
   (C5_service_times_disabled legacyValidation exampleDeps exampleConfig exampleGlobals
     exampleClient (RangeOrder.stored _) (RangeOrder.stored _) (RangeOrder.stored _)
     (RangeOrder.stored _) exampleExporter (by decide)).1,
   (C5_service_times_disabled legacyValidation exampleDeps exampleConfig exampleGlobals
     exampleClient (RangeOrder.stored _) (RangeOrder.stored _) (RangeOrder.stored _)
     (RangeOrder.stored _) exampleExporter (by decide)).2.2.2.1 (by decide)⟩

/-- C5 as stated fails in its last part when the counters loop panics: with
`ExtractServiceTimes` false and a counters descriptor that declares a variable
label, `Collect` calls `GetCounters` and never reaches `GetInfos`. -/
theorem C5_counterexample :
    labelledGlobals.ExtractServiceTimes = false ∧
    (fetchedCounters exampleClient exampleExporter).2 = none ∧
    (Collect legacyValidation labelledGlobals exampleClient (RangeOrder.stored _)
      exampleExporter).calls = [Call.GetCounters] ∧
    (Collect legacyValidation labelledGlobals exampleClient (RangeOrder.stored _)
      exampleExporter).calls ≠ [Call.GetCounters, Call.GetInfos] ∧
    (Collect legacyValidation labelledGlobals exampleClient (RangeOrder.stored _)
      exampleExporter).panic = some (LibError.inconsistentCardinality 1 0) := by
  decide

/-- C4, as the code has it: a record whose key is absent from the map of its
family, and which is not a `squid_info` info record, has no effect: a second
client whose results differ only in such records makes `Collect` send the same
samples, make the same calls and end the same way. When no
`MustNewConstMetric` call panics, the samples `Collect` sends split into a
counters block, a service-times block and an infos block, followed by the
availability samples, and after a successful fetch the block of a family
holds, in record order, exactly one sample per record whose key is in the map
of the family (for infos also per `squid_info` record not in the map). -/
theorem C4_unknown_keys_dropped {σ : Type} (rules : Validation) (g : Globals)
    (cl : SquidClient σ) (ord : RangeOrder (Sigma fun _ : String => float64))
    (e : Exporter σ) :
    (NoPanic rules g cl e →
      ∃ cs ss is : List Metric,
        (Collect rules g cl ord e).c =
          cs ++ (ss ++ (is ++ (Collect rules g cl ord e).exporter.up.Collect ord [])) ∧
        ((fetchedCounters cl e).2 = none →
          List.Forall₂ (IsImage g.counters ValueType.CounterValue)
            ((fetchedCounters cl e).1.filter fun inst => decide (inst.Key ∈ g.counters)) cs) ∧
        (g.ExtractServiceTimes = true → (fetchedServiceTimes cl e).2 = none →
          List.Forall₂ (IsImage g.serviceTimes ValueType.GaugeValue)
            ((fetchedServiceTimes cl e).1.filter
              fun inst => decide (inst.Key ∈ g.serviceTimes)) ss) ∧
        ((fetchedInfos g cl e).2 = none →
          List.Forall₂ (IsInfoImage g.infos)
            ((fetchedInfos g cl e).1.filter
              fun inst => decide (inst.Key ∈ g.infos ∨ inst.Key = "squid_info")) is)) ∧
    (∀ cl2 : SquidClient σ,
      (fetchedCounters cl2 e).2 = (fetchedCounters cl e).2 →
      ((fetchedCounters cl2 e).1.filter fun inst => decide (inst.Key ∈ g.counters)) =
        ((fetchedCounters cl e).1.filter fun inst => decide (inst.Key ∈ g.counters)) →
      (fetchedServiceTimes cl2 e).2 = (fetchedServiceTimes cl e).2 →
      ((fetchedServiceTimes cl2 e).1.filter fun inst => decide (inst.Key ∈ g.serviceTimes)) =
        ((fetchedServiceTimes cl e).1.filter
          fun inst => decide (inst.Key ∈ g.serviceTimes)) →
      (fetchedInfos g cl2 e).2 = (fetchedInfos g cl e).2 →
      ((fetchedInfos g cl2 e).1.filter
          fun inst => decide (inst.Key ∈ g.infos ∨ inst.Key = "squid_info")) =
        ((fetchedInfos g cl e).1.filter
          fun inst => decide (inst.Key ∈ g.infos ∨ inst.Key = "squid_info")) →
      (Collect rules g cl2 ord e).c = (Collect rules g cl ord e).c ∧
      (Collect rules g cl2 ord e).calls = (Collect rules g cl ord e).calls ∧
      (Collect rules g cl2 ord e).panic = (Collect rules g cl ord e).panic) := by
  constructor
  · intro hnp
    refine ⟨counterSamples g (fetchedCounters cl e),
      serviceTimeSamples g (fetchedServiceTimes cl e),
      infoSamples rules g (fetchedInfos g cl e), ?_, ?_, ?_, ?_⟩
    · rw [Collect_up]
      exact Collect_c_of_noPanic rules g cl ord e hnp
    · intro hok
      rw [counterSamples_of_ok g _ hok hnp.1]
      exact known_image g.counters ValueType.CounterValue (fetchedCounters cl e).1
    · intro hon hok
      rw [serviceTimeSamples_of_ok g _ hon hok hnp.2.1]
      exact known_image g.serviceTimes ValueType.GaugeValue (fetchedServiceTimes cl e).1
    · intro hok
      rw [infoSamples_of_ok rules g _ hok hnp.2.2]
      exact info_image rules g.infos (fetchedInfos g cl e).1
        fun inst hmem => ((hnp.2.2 hok) inst hmem).2
  · intro cl2 hc2 hc1 hs2 hs1 hi2 hi1
    have hcs : counterSamples g (fetchedCounters cl2 e) =
        counterSamples g (fetchedCounters cl e) := by
      unfold counterSamples
      rw [hc2, ← loopSamples_filter _ _ _ (known_isSome g.counters), hc1,
        loopSamples_filter _ _ _ (known_isSome g.counters)]
    have hcp : counterPanic g (fetchedCounters cl2 e) =
        counterPanic g (fetchedCounters cl e) := by
      unfold counterPanic
      rw [hc2, ← loopPanic_filter _ _ (known_isSome g.counters), hc1,
        loopPanic_filter _ _ (known_isSome g.counters)]
    have hss : serviceTimeSamples g (fetchedServiceTimes cl2 e) =
        serviceTimeSamples g (fetchedServiceTimes cl e) := by
      unfold serviceTimeSamples
      rw [hs2, ← loopSamples_filter _ _ _ (known_isSome g.serviceTimes), hs1,
        loopSamples_filter _ _ _ (known_isSome g.serviceTimes)]
    have hsp : serviceTimePanic g (fetchedServiceTimes cl2 e) =
        serviceTimePanic g (fetchedServiceTimes cl e) := by
      unfold serviceTimePanic
      rw [hs2, ← loopPanic_filter _ _ (known_isSome g.serviceTimes), hs1,
        loopPanic_filter _ _ (known_isSome g.serviceTimes)]
    have his : infoSamples rules g (fetchedInfos g cl2 e) =
        infoSamples rules g (fetchedInfos g cl e) := by
      unfold infoSamples
      rw [hi2, ← loopSamples_filter _ _ _ (info_isSome rules g.infos), hi1,
        loopSamples_filter _ _ _ (info_isSome rules g.infos)]
    have hip : infoPanic rules g (fetchedInfos g cl2 e) =
        infoPanic rules g (fetchedInfos g cl e) := by
      unfold infoPanic
      rw [hi2, ← loopPanic_filter _ _ (info_isSome rules g.infos), hi1,
        loopPanic_filter _ _ (info_isSome rules g.infos)]
    have hup : upValue (fetchedCounters cl2 e) = upValue (fetchedCounters cl e) := by
      unfold upValue
      rw [hc2]
    refine ⟨?_, ?_, ?_⟩
    · rw [Collect_c, Collect_c, hcs, hcp, hss, hsp, his, hip, hup]
    · rw [Collect_calls, Collect_calls, hcp, hsp]
    · rw [Collect_panic, Collect_panic, hcp, hsp, hip]

/-- C4 at the example client, whose counters hold a record with an unknown
key: no panic, and the output splits into the three blocks. -/
theorem C4_unknown_keys_dropped_witness :
    NoPanic legacyValidation timesGlobals exampleClient exampleExporter ∧
    (fetchedCounters exampleClient exampleExporter).1.length = 2 ∧
    (Collect legacyValidation timesGlobals exampleClient (RangeOrder.stored _)
      exampleExporter).c.length = 5 ∧
    ∃ cs ss is : List Metric,
      (Collect legacyValidation timesGlobals exampleClient (RangeOrder.stored _)
          exampleExporter).c =
        cs ++ (ss ++ (is ++ (Collect legacyValidation timesGlobals exampleClient
          (RangeOrder.stored _) exampleExporter).exporter.up.Collect
            (RangeOrder.stored _) [])) ∧
      ((fetchedCounters exampleClient exampleExporter).2 = none →
        List.Forall₂ (IsImage timesGlobals.counters ValueType.CounterValue)
          ((fetchedCounters exampleClient exampleExporter).1.filter
            fun inst => decide (inst.Key ∈ timesGlobals.counters)) cs) ∧
      (timesGlobals.ExtractServiceTimes = true →
        (fetchedServiceTimes exampleClient exampleExporter).2 = none →
        List.Forall₂ (IsImage timesGlobals.serviceTimes ValueType.GaugeValue)
          ((fetchedServiceTimes exampleClient exampleExporter).1.filter
            fun inst => decide (inst.Key ∈ timesGlobals.serviceTimes)) ss) ∧
      ((fetchedInfos timesGlobals exampleClient exampleExporter).2 = none →
        List.Forall₂ (IsInfoImage timesGlobals.infos)
          ((fetchedInfos timesGlobals exampleClient exampleExporter).1.filter
            fun inst => decide (inst.Key ∈ timesGlobals.infos ∨ inst.Key = "squid_info"))
          is) :=
  ⟨by decide, by decide, by decide,
   (C4_unknown_keys_dropped legacyValidation timesGlobals exampleClient (RangeOrder.stored _)
     exampleExporter).1 (by decide)⟩

/-- C4 as stated fails in its second part when a loop panics: the infos fetch
succeeds with a catalogued record and a `squid_info` record outside the info
map, two records that should each have a sample, yet the reserved label key of
the second makes `MustNewConstMetric` panic and `Collect` sends one gauge
sample only. -/
theorem C4_counterexample :
    (fetchedInfos exampleGlobals reservedClient exampleExporter).2 = none ∧
    ((fetchedInfos exampleGlobals reservedClient exampleExporter).1.filter
      fun inst => decide (inst.Key ∈ exampleGlobals.infos ∨ inst.Key = "squid_info")) =
      [clientsRecord, reservedRecord] ∧
    ((Collect legacyValidation exampleGlobals reservedClient (RangeOrder.stored _)
        exampleExporter).c.filter fun x => decide (x.valType = ValueType.GaugeValue)) =
      [{ desc := clientsDesc, valType := ValueType.GaugeValue, val := float64.one,
         labelValues := [] }] ∧
    (Collect legacyValidation exampleGlobals reservedClient (RangeOrder.stored _)
        exampleExporter).panic = some LibError.invalidLabelName := by
  decide

/-- C6, as the code has it: `Collect` returns, that is, does not panic,
exactly when no `MustNewConstMetric` call panics; a fetch error never makes it
panic, and with three fetch errors it returns availability 0 alone. When it
returns, each family stands alone: the output is the counter samples, the
service-time samples and the info samples, each computed from the result of
its own fetch only, then the availability sample; an error from `GetCounters`
leaves the service-time and info samples followed by availability 0, and a
client that differs only in its counters result sends its own counter samples
in front of the very same service-time and info samples; an error from
`GetServiceTimes` or from `GetInfos` removes only the samples of that
family. -/
theorem C6_failure_isolation {σ : Type} (rules : Validation) (g : Globals)
    (cl : SquidClient σ) (ord : RangeOrder (Sigma fun _ : String => float64))
    (e : Exporter σ) (hown : OwnHostOnly e) :
    ((Collect rules g cl ord e).panic = none ↔ NoPanic rules g cl e) ∧
    ((fetchedCounters cl e).2 ≠ none → (fetchedServiceTimes cl e).2 ≠ none →
      (fetchedInfos g cl e).2 ≠ none →
      (Collect rules g cl ord e).panic = none ∧
      (Collect rules g cl ord e).c = [upSample e float64.zero]) ∧
    (NoPanic rules g cl e →
      (Collect rules g cl ord e).c =
        counterSamples g (fetchedCounters cl e) ++
          (serviceTimeSamples g (fetchedServiceTimes cl e) ++
            (infoSamples rules g (fetchedInfos g cl e) ++
              [upSample e (upValue (fetchedCounters cl e))])) ∧
      ((fetchedCounters cl e).2 ≠ none →
        (Collect rules g cl ord e).c =
          serviceTimeSamples g (fetchedServiceTimes cl e) ++
            (infoSamples rules g (fetchedInfos g cl e) ++ [upSample e float64.zero]) ∧
        ∀ x ∈ (Collect rules g cl ord e).c, x.valType ≠ ValueType.CounterValue) ∧
      ((fetchedCounters cl e).2 ≠ none →
        ∀ cl2 : SquidClient σ,
          fetchedServiceTimes cl2 e = fetchedServiceTimes cl e →
          fetchedInfos g cl2 e = fetchedInfos g cl e →
          CountersOk g (fetchedCounters cl2 e) →
          (Collect rules g cl2 ord e).c =
            counterSamples g (fetchedCounters cl2 e) ++
              ((Collect rules g cl ord e).c.dropLast ++
                [upSample e (upValue (fetchedCounters cl2 e))])) ∧
      ((fetchedServiceTimes cl e).2 ≠ none →
        (Collect rules g cl ord e).c =
          counterSamples g (fetchedCounters cl e) ++
            (infoSamples rules g (fetchedInfos g cl e) ++
              [upSample e (upValue (fetchedCounters cl e))])) ∧
      ((fetchedInfos g cl e).2 ≠ none →
        (Collect rules g cl ord e).c =
          counterSamples g (fetchedCounters cl e) ++
            (serviceTimeSamples g (fetchedServiceTimes cl e) ++
              [upSample e (upValue (fetchedCounters cl e))]))) := by
  refine ⟨Collect_panic_eq_none_iff rules g cl ord e, ?_, ?_⟩
  · intro h1 h2 h3
    have hnp : NoPanic rules g cl e :=
      ⟨fun h => absurd h h1, fun _ h => absurd h h2, fun h => absurd h h3⟩
    refine ⟨(Collect_panic_eq_none_iff rules g cl ord e).mpr hnp, ?_⟩
    rw [Collect_c_own rules g cl ord e hown hnp]
    simp [counterSamples, serviceTimeSamples, infoSamples, upValue, h1, h2, h3]
  · intro hnp
    have hc := Collect_c_own rules g cl ord e hown hnp
    have hfail : (fetchedCounters cl e).2 ≠ none →
        (Collect rules g cl ord e).c =
          serviceTimeSamples g (fetchedServiceTimes cl e) ++
            (infoSamples rules g (fetchedInfos g cl e) ++ [upSample e float64.zero]) := by
      intro herr
      rw [hc]
      simp [counterSamples, upValue, herr]
    refine ⟨hc, ?_, ?_, ?_, ?_⟩
    · intro herr
      refine ⟨hfail herr, ?_⟩
      intro x hx
      rw [hfail herr] at hx
      simp only [List.mem_append, List.mem_singleton] at hx
      rcases hx with hx | hx | hx
      · rw [(serviceTimeSamples_valType g _ x hx).1]; decide
      · rw [(infoSamples_valType rules g _ x hx).1]; decide
      · subst hx; simp [upSample]
    · intro herr cl2 hs hi hc2
      have hnp2 : NoPanic rules g cl2 e := ⟨hc2, by rw [hs]; exact hnp.2.1,
        by rw [hi]; exact hnp.2.2⟩
      rw [Collect_c_own rules g cl2 ord e hown hnp2, hfail herr, hs, hi]
      simp [← List.append_assoc]
    · intro herr
      rw [hc]
      simp [serviceTimeSamples, herr]
    · intro herr
      rw [hc]
      simp [infoSamples, herr]

/-- C6 at a client whose counters fetch fails: no panic, and the output is
the service-time sample, the two info samples and availability 0. -/
theorem C6_failure_isolation_witness :
    OwnHostOnly exampleExporter ∧
    NoPanic legacyValidation timesGlobals countersDownClient exampleExporter ∧
    (fetchedCounters countersDownClient exampleExporter).2 ≠ none ∧
    (Collect legacyValidation timesGlobals countersDownClient (RangeOrder.stored _)
        exampleExporter).c =
      serviceTimeSamples timesGlobals (fetchedServiceTimes countersDownClient exampleExporter) ++
        (infoSamples legacyValidation timesGlobals
            (fetchedInfos timesGlobals countersDownClient exampleExporter) ++
          [upSample exampleExporter float64.zero]) ∧
    (Collect legacyValidation timesGlobals countersDownClient (RangeOrder.stored _)
        exampleExporter).c.length = 4 ∧
    (Collect legacyValidation timesGlobals downClient (RangeOrder.stored _)
        exampleExporter).c = [upSample exampleExporter float64.zero] :=
  ⟨by decide, by decide, by decide,
   (((C6_failure_isolation legacyValidation timesGlobals countersDownClient
     (RangeOrder.stored _) exampleExporter (by decide)).2.2 (by decide)).2.1 (by decide)).1,
   by decide,
   ((C6_failure_isolation legacyValidation timesGlobals downClient
     (RangeOrder.stored _) exampleExporter (by decide)).2.1 (by decide) (by decide)
     (by decide)).2⟩

/-- C6 as stated fails in its last sentence: with three successful fetches
and a `squid_info` record with a reserved label key, `Collect` panics in
`MustNewConstMetric` at line 129 instead of returning, and the availability
sample is never sent. -/
theorem C6_counterexample :
    OwnHostOnly exampleExporter ∧
    (fetchedCounters reservedClient exampleExporter).2 = none ∧
    (fetchedServiceTimes reservedClient exampleExporter).2 = none ∧
    (fetchedInfos timesGlobals reservedClient exampleExporter).2 = none ∧
    (Collect legacyValidation timesGlobals reservedClient (RangeOrder.stored _)
        exampleExporter).panic = some LibError.invalidLabelName ∧
    (Collect legacyValidation timesGlobals reservedClient (RangeOrder.stored _)
        exampleExporter).c.length = 3 ∧
    upSample exampleExporter float64.one ∉
      (Collect legacyValidation timesGlobals reservedClient (RangeOrder.stored _)
        exampleExporter).c := by
  decide

/-- C7, as the code has it: take an info record returned by a successful
`GetInfos` whose key is `squid_info` and is not in the info map, whose label
keys all pass `checkLabelName`, and which the run reaches, no
`MustNewConstMetric` call having panicked before it. `Collect` sends, at the
place of the record among the info samples, exactly one gauge sample with the
value of the record, under a valid descriptor named `squid_info_service`
without variable labels whose constant labels map every label key to the value
of its last occurrence in the `VarLabels` of the record and hold no other
key. -/
theorem C7_info_synthesis {σ : Type} (rules : Validation) (g : Globals) (cl : SquidClient σ)
    (ord : RangeOrder (Sigma fun _ : String => float64)) (e : Exporter σ)
    (before after : List Record) (inst : Record)
    (hok : fetchedInfos g cl e = (before ++ inst :: after, none))
    (hkey : inst.Key = "squid_info") (habs : inst.Key ∉ g.infos)
    (hlab : LabelsOk rules inst)
    (hc : CountersOk g (fetchedCounters cl e))
    (hs : ServiceTimesOk g (fetchedServiceTimes cl e))
    (hb : InfosOk rules g (before, none)) :
    ∃ x : Metric,
      x.desc.fqName = "squid_info_service" ∧
      x.desc.variableLabels = [] ∧
      x.desc.err = none ∧
      (∀ k, x.desc.constLabels.lookup k = lastValue inst.VarLabels k) ∧
      x.valType = ValueType.GaugeValue ∧
      x.val = inst.Value ∧
      x.labelValues = [] ∧
      (Collect rules g cl ord e).c =
        counterSamples g (fetchedCounters cl e) ++
          (serviceTimeSamples g (fetchedServiceTimes cl e) ++
            (infoSamples rules g (before, none) ++
              x :: (infoSamples rules g (after, none) ++
                (if (infoPanic rules g (after, none)).isSome then []
                 else (Collect rules g cl ord e).exporter.up.Collect ord [])))) := by
  have hd : infoDescriptor rules g.infos inst = some (infoDesc rules inst) := by
    have h : g.infos.lookup inst.Key = none := AList.lookup_eq_none.mpr habs
    simp only [infoDescriptor, h, hkey, if_true]
  have hu : Usable (infoDesc rules inst) := (infoDesc_usable_iff rules inst).mpr hlab
  obtain ⟨h1, _, h3, h4, h5⟩ := infoDesc_isInfoDesc rules inst hlab
  exact ⟨sampleUnder ValueType.GaugeValue inst (infoDesc rules inst), h1, h3, h4, h5, rfl, rfl,
    rfl, Collect_c_at_info rules g cl ord e before after inst _ hok hc hs hb hd hu⟩

/-- C7 at a record that gives the label `version` twice: the hypotheses hold
and the synthesized sample exists. -/
theorem C7_info_synthesis_witness :
    fetchedInfos exampleGlobals repeatedLabelClient exampleExporter =
      ([clientsRecord] ++ repeatedLabelRecord :: [], none) ∧
    repeatedLabelRecord.Key = "squid_info" ∧
    repeatedLabelRecord.Key ∉ exampleGlobals.infos ∧
    LabelsOk legacyValidation repeatedLabelRecord ∧
    CountersOk exampleGlobals (fetchedCounters repeatedLabelClient exampleExporter) ∧
    ServiceTimesOk exampleGlobals (fetchedServiceTimes repeatedLabelClient exampleExporter) ∧
    InfosOk legacyValidation exampleGlobals ([clientsRecord], none) ∧
    lastValue repeatedLabelRecord.VarLabels "version" = some "5.7" ∧
    ∃ x : Metric,
      x.desc.fqName = "squid_info_service" ∧
      x.desc.variableLabels = [] ∧
      x.desc.err = none ∧
      (∀ k, x.desc.constLabels.lookup k = lastValue repeatedLabelRecord.VarLabels k) ∧
      x.valType = ValueType.GaugeValue ∧
      x.val = repeatedLabelRecord.Value ∧
      x.labelValues = [] ∧
      (Collect legacyValidation exampleGlobals repeatedLabelClient (RangeOrder.stored _)
          exampleExporter).c =
        counterSamples exampleGlobals (fetchedCounters repeatedLabelClient exampleExporter) ++
          (serviceTimeSamples exampleGlobals
              (fetchedServiceTimes repeatedLabelClient exampleExporter) ++
            (infoSamples legacyValidation exampleGlobals ([clientsRecord], none) ++
              x :: (infoSamples legacyValidation exampleGlobals ([], none) ++
                (if (infoPanic legacyValidation exampleGlobals ([], none)).isSome then []
                 else (Collect legacyValidation exampleGlobals repeatedLabelClient
                   (RangeOrder.stored _) exampleExporter).exporter.up.Collect
                     (RangeOrder.stored _) [])))) :=
  ⟨by decide, by decide, by decide, by decide, by decide, by decide, by decide, by decide,
   C7_info_synthesis legacyValidation exampleGlobals repeatedLabelClient (RangeOrder.stored _)
     exampleExporter [clientsRecord] [] repeatedLabelRecord
     (by decide) (by decide) (by decide) (by decide) (by decide) (by decide) (by decide)⟩

/-- C7 as stated fails for a label key the library rejects: a `squid_info`
record outside the info map with the reserved label key `__reserved`,
returned by a successful `GetInfos`, makes `MustNewConstMetric` panic at line
129, and `Collect` sends no sample at all. -/
theorem C7_counterexample :
    fetchedInfos exampleGlobals
        (fixedClient ([], none) ([], none) ([reservedRecord], none)) exampleExporter =
      ([reservedRecord], none) ∧
    reservedRecord.Key = "squid_info" ∧
    reservedRecord.Key ∉ exampleGlobals.infos ∧
    (Collect legacyValidation exampleGlobals
        (fixedClient ([], none) ([], none) ([reservedRecord], none)) (RangeOrder.stored _)
        exampleExporter).c = [] ∧
    (Collect legacyValidation exampleGlobals
        (fixedClient ([], none) ([], none) ([reservedRecord], none)) (RangeOrder.stored _)
        exampleExporter).panic = some LibError.invalidLabelName := by
  decide

/-- C3, as the code has it: a `squid_info` record with `VarLabels`
`version = 5.7` returned by a successful `GetInfos`, which the run reaches
(no `MustNewConstMetric` call having panicked before it), yields exactly one
gauge sample at its place among the info samples. When `squid_info` is not in
the info map the sample is synthesized and the constant labels of its
descriptor are exactly `version = 5.7`; when the info map has a usable
descriptor for `squid_info` the sample is sent under that descriptor and none
is synthesized. -/
theorem C3_version_record {σ : Type} (rules : Validation) (g : Globals) (cl : SquidClient σ)
    (ord : RangeOrder (Sigma fun _ : String => float64)) (e : Exporter σ)
    (before after : List Record) (inst : Record)
    (hok : fetchedInfos g cl e = (before ++ inst :: after, none))
    (hkey : inst.Key = "squid_info") (hlab : inst.VarLabels = [⟨"version", "5.7"⟩])
    (hc : CountersOk g (fetchedCounters cl e))
    (hs : ServiceTimesOk g (fetchedServiceTimes cl e))
    (hb : InfosOk rules g (before, none)) :
    (inst.Key ∉ g.infos →
      (Collect rules g cl ord e).c =
        counterSamples g (fetchedCounters cl e) ++
          (serviceTimeSamples g (fetchedServiceTimes cl e) ++
            (infoSamples rules g (before, none) ++
              { desc :=
                  { fqName := "squid_info_service"
                    help := "Metrics as string from info on cache_object"
                    constLabels := AList.singleton "version" "5.7"
                    variableLabels := []
                    err := none }
                valType := ValueType.GaugeValue, val := inst.Value, labelValues := [] } ::
                (infoSamples rules g (after, none) ++
                  (if (infoPanic rules g (after, none)).isSome then []
                   else (Collect rules g cl ord e).exporter.up.Collect ord []))))) ∧
    (∀ d : Desc, g.infos.lookup inst.Key = some d → Usable d →
      (Collect rules g cl ord e).c =
        counterSamples g (fetchedCounters cl e) ++
          (serviceTimeSamples g (fetchedServiceTimes cl e) ++
            (infoSamples rules g (before, none) ++
              { desc := d, valType := ValueType.GaugeValue, val := inst.Value,
                labelValues := [] } ::
                (infoSamples rules g (after, none) ++
                  (if (infoPanic rules g (after, none)).isSome then []
                   else (Collect rules g cl ord e).exporter.up.Collect ord []))))) := by
  constructor
  · intro habs
    have hl : LabelsOk rules inst := by
      intro vl hvl
      rw [hlab, List.mem_singleton] at hvl
      subst hvl
      have h1 : rules.IsValidLabelName "version" = true :=
        rules.label_legacy _ (by decide)
      have h2 : reserved "version" = false := by decide
      simp [checkLabelName, h1, h2]
    have hd : infoDescriptor rules g.infos inst = some (infoDesc rules inst) := by
      have h : g.infos.lookup inst.Key = none := AList.lookup_eq_none.mpr habs
      simp only [infoDescriptor, h, hkey, if_true]
    have hu : Usable (infoDesc rules inst) := (infoDesc_usable_iff rules inst).mpr hl
    have hdesc : infoDesc rules inst =
        { fqName := "squid_info_service"
          help := "Metrics as string from info on cache_object"
          constLabels := AList.singleton "version" "5.7"
          variableLabels := []
          err := none } := by
      simp only [infoDesc, hl, if_true, hlab, List.foldl_cons, List.foldl_nil,
        AList.insert_empty]
    have := Collect_c_at_info rules g cl ord e before after inst _ hok hc hs hb hd hu
    rw [hdesc] at this
    exact this
  · intro d hd hu
    have hd2 : infoDescriptor rules g.infos inst = some d := by
      simp only [infoDescriptor, hd]
    exact Collect_c_at_info rules g cl ord e before after inst d hok hc hs hb hd2 hu

/-- C3 at an info map without `squid_info`: the record yields the
synthesized sample with constant labels `version = 5.7`. -/
theorem C3_version_record_witness :
    fetchedInfos exampleGlobals versionClient exampleExporter =
      ([] ++ versionRecord :: [], none) ∧
    versionRecord.Key = "squid_info" ∧
    versionRecord.VarLabels = [⟨"version", "5.7"⟩] ∧
    CountersOk exampleGlobals (fetchedCounters versionClient exampleExporter) ∧
    ServiceTimesOk exampleGlobals (fetchedServiceTimes versionClient exampleExporter) ∧
    InfosOk legacyValidation exampleGlobals ([], none) ∧
    versionRecord.Key ∉ exampleGlobals.infos ∧
    (Collect legacyValidation exampleGlobals versionClient (RangeOrder.stored _)
        exampleExporter).c =
      [{ desc :=
           { fqName := "squid_info_service"
             help := "Metrics as string from info on cache_object"
             constLabels := AList.singleton "version" "5.7"
             variableLabels := []
             err := none }
         valType := ValueType.GaugeValue, val := float64.one, labelValues := [] },
       upSample exampleExporter float64.one] :=
  ⟨by decide, by decide, by decide, by decide, by decide, by decide, by decide,
   (C3_version_record legacyValidation exampleGlobals versionClient (RangeOrder.stored _)
     exampleExporter [] [] versionRecord (by decide) (by decide) (by decide) (by decide)
     (by decide) (by decide)).1 (by decide)⟩

/-- C3 as stated fails when the info map has an entry for `squid_info`: the
record is sent under the catalogued descriptor, which is valid and has no
variable labels, and no sample of the output has a descriptor with constant
labels `version = 5.7`. -/
theorem C3_counterexample :
    "squid_info" ∈ cataloguedInfoGlobals.infos ∧
    Usable cataloguedInfoDesc ∧
    fetchedInfos cataloguedInfoGlobals versionClient exampleExporter =
      ([versionRecord], none) ∧
    (Collect legacyValidation cataloguedInfoGlobals versionClient (RangeOrder.stored _)
        exampleExporter).c =
      [{ desc := cataloguedInfoDesc, valType := ValueType.GaugeValue, val := float64.one,
         labelValues := [] },
       upSample exampleExporter float64.one] ∧
    (Collect legacyValidation cataloguedInfoGlobals versionClient (RangeOrder.stored _)
        exampleExporter).panic = none ∧
    ¬ ∃ x ∈ (Collect legacyValidation cataloguedInfoGlobals versionClient (RangeOrder.stored _)
        exampleExporter).c, x.desc.constLabels = AList.singleton "version" "5.7" := by
  decide

/-- C8: when the client answers the fetches of a second `Collect` as it
answered those of the first and the package maps are the same, the second
call sends the same sample sequence as the first, makes the same calls and
ends the same way; if the counters fetch succeeds the gauge of the host is 1
after both, and when no `MustNewConstMetric` call panics both calls return and
both outputs end with availability 1; and the second output is the one `Collect` sends from any exporter of
the same host and client state whose `up` vector holds no foreign host, so
nothing but the client state is carried from the first cycle into the
second. -/
theorem C8_idempotent {σ : Type} (rules : Validation) (g : Globals) (cl : SquidClient σ)
    (ord1 ord2 : RangeOrder (Sigma fun _ : String => float64)) (e : Exporter σ)
    (hown : OwnHostOnly e)
    (hc : fetchedCounters cl (Collect rules g cl ord1 e).exporter = fetchedCounters cl e)
    (hs : g.ExtractServiceTimes = true →
      fetchedServiceTimes cl (Collect rules g cl ord1 e).exporter = fetchedServiceTimes cl e)
    (hi : fetchedInfos g cl (Collect rules g cl ord1 e).exporter = fetchedInfos g cl e) :
    (Collect rules g cl ord2 (Collect rules g cl ord1 e).exporter).c =
      (Collect rules g cl ord1 e).c ∧
    (Collect rules g cl ord2 (Collect rules g cl ord1 e).exporter).calls =
      (Collect rules g cl ord1 e).calls ∧
    (Collect rules g cl ord2 (Collect rules g cl ord1 e).exporter).panic =
      (Collect rules g cl ord1 e).panic ∧
    (Collect rules g cl ord2 (Collect rules g cl ord1 e).exporter).globals = g ∧
    ((fetchedCounters cl e).2 = none →
      (Collect rules g cl ord1 e).exporter.up.children.entries =
        [⟨e.hostname, float64.one⟩] ∧
      (Collect rules g cl ord2 (Collect rules g cl ord1 e).exporter).exporter.up.children.entries =
        [⟨e.hostname, float64.one⟩] ∧
      (NoPanic rules g cl e →
        (Collect rules g cl ord1 e).panic = none ∧
        (Collect rules g cl ord2 (Collect rules g cl ord1 e).exporter).panic = none ∧
        (Collect rules g cl ord1 e).c.getLast? = some (upSample e float64.one) ∧
        (Collect rules g cl ord2 (Collect rules g cl ord1 e).exporter).c.getLast? =
          some (upSample e float64.one))) ∧
    (∀ e0 : Exporter σ, e0.client = (Collect rules g cl ord1 e).exporter.client →
      e0.hostname = e.hostname → e0.up.desc = e.up.desc → OwnHostOnly e0 →
      (Collect rules g cl ord2 e0).c =
        (Collect rules g cl ord2 (Collect rules g cl ord1 e).exporter).c) := by
  have hown1 : OwnHostOnly (Collect rules g cl ord1 e).exporter :=
    Collect_own rules g cl ord1 e hown
  have hdesc : (Collect rules g cl ord1 e).exporter.up.desc = e.up.desc := by
    rw [Collect_up]; rfl
  have hup : ∀ v, upSample (Collect rules g cl ord1 e).exporter v = upSample e v := by
    intro v
    unfold upSample
    rw [hdesc, Collect_hostname]
  have hst : serviceTimeSamples g (fetchedServiceTimes cl (Collect rules g cl ord1 e).exporter) =
      serviceTimeSamples g (fetchedServiceTimes cl e) ∧
      serviceTimePanic g (fetchedServiceTimes cl (Collect rules g cl ord1 e).exporter) =
      serviceTimePanic g (fetchedServiceTimes cl e) := by
    cases hf : g.ExtractServiceTimes
    · simp [serviceTimeSamples, serviceTimePanic, hf]
    · rw [hs hf]
      exact ⟨rfl, rfl⟩
  have h2 : (Collect rules g cl ord2 (Collect rules g cl ord1 e).exporter).c =
      (Collect rules g cl ord1 e).c := by
    rw [Collect_c, Collect_c, up_Collect_own _ hown1, up_Collect_own e hown, hc, hst.1, hst.2,
      hi, hup]
  have hcalls : (Collect rules g cl ord2 (Collect rules g cl ord1 e).exporter).calls =
      (Collect rules g cl ord1 e).calls := by
    rw [Collect_calls, Collect_calls, hc, hst.2]
  have hpanic : (Collect rules g cl ord2 (Collect rules g cl ord1 e).exporter).panic =
      (Collect rules g cl ord1 e).panic := by
    rw [Collect_panic, Collect_panic, hc, hst.2, hi]
  refine ⟨h2, hcalls, hpanic, Collect_globals _ _ _ _ _, ?_, ?_⟩
  · intro hok
    have hv : upValue (fetchedCounters cl e) = float64.one := by simp [upValue, hok]
    have he1 : (Collect rules g cl ord1 e).exporter.up.children.entries =
        [⟨e.hostname, float64.one⟩] := by
      rw [Collect_up, hv]
      exact WithSet_own_entries e hown _
    have he2 : (Collect rules g cl ord2
        (Collect rules g cl ord1 e).exporter).exporter.up.children.entries =
        [⟨e.hostname, float64.one⟩] := by
      rw [Collect_up, hc, hv, WithSet_own_entries _ hown1, Collect_hostname]
    refine ⟨he1, he2, ?_⟩
    intro hnp
    have hret := (Collect_panic_eq_none_iff rules g cl ord1 e).mpr hnp
    have h1 : (Collect rules g cl ord1 e).c.getLast? = some (upSample e float64.one) := by
      rw [Collect_c_own rules g cl ord1 e hown hnp, hv]
      simp [← List.append_assoc]
    exact ⟨hret, by rw [hpanic]; exact hret, h1, by rw [h2]; exact h1⟩
  · intro e0 hcl hh hd hown0
    have hfc : fetchedCounters cl e0 =
        fetchedCounters cl (Collect rules g cl ord1 e).exporter := by
      unfold fetchedCounters; rw [hcl]
    have hfs : fetchedServiceTimes cl e0 =
        fetchedServiceTimes cl (Collect rules g cl ord1 e).exporter := by
      unfold fetchedServiceTimes; rw [hcl]
    have hfi : fetchedInfos g cl e0 =
        fetchedInfos g cl (Collect rules g cl ord1 e).exporter := by
      unfold fetchedInfos clientBeforeInfos; rw [hcl]
    have hup0 : ∀ v, upSample e0 v = upSample (Collect rules g cl ord1 e).exporter v := by
      intro v
      rw [hup]
      unfold upSample
      rw [hd, hh]
    rw [Collect_c, Collect_c, up_Collect_own e0 hown0, up_Collect_own _ hown1, hfc, hfs, hfi,
      hup0]

/-- C8 at the example exporter and a client that answers the same each
time: two successive calls send the same samples. -/
theorem C8_idempotent_witness :
    OwnHostOnly exampleExporter ∧
    fetchedCounters exampleClient
        (Collect legacyValidation timesGlobals exampleClient (RangeOrder.stored _)
          exampleExporter).exporter =
      fetchedCounters exampleClient exampleExporter ∧
    fetchedServiceTimes exampleClient
        (Collect legacyValidation timesGlobals exampleClient (RangeOrder.stored _)
          exampleExporter).exporter =
      fetchedServiceTimes exampleClient exampleExporter ∧
    fetchedInfos timesGlobals exampleClient
        (Collect legacyValidation timesGlobals exampleClient (RangeOrder.stored _)
          exampleExporter).exporter =
      fetchedInfos timesGlobals exampleClient exampleExporter ∧
    (Collect legacyValidation timesGlobals exampleClient (RangeOrder.stored _)
        (Collect legacyValidation timesGlobals exampleClient (RangeOrder.stored _)
          exampleExporter).exporter).c =
      (Collect legacyValidation timesGlobals exampleClient (RangeOrder.stored _)
        exampleExporter).c ∧
    (Collect legacyValidation timesGlobals exampleClient (RangeOrder.stored _)
      exampleExporter).c.length = 5 ∧
    (Collect legacyValidation timesGlobals exampleClient (RangeOrder.stored _)
      exampleExporter).panic = none :=
  ⟨by decide, by decide, by decide, by decide,
   (C8_idempotent legacyValidation timesGlobals exampleClient (RangeOrder.stored _)
     (RangeOrder.stored _) exampleExporter (by decide) (by decide) (fun _ => by decide)
     (by decide)).1,
   by decide, by decide⟩

end collector
